import Mathlib

/-!
# infinoted: runtime configuration reload

A shallow embedding of `infinoted_config_reload`
(`src/infinoted/infinoted-config-reload.c`).

Heap objects are records carrying an identity (a natural number, the
address); two pointers are equal when the identities are.  Every object the function allocates takes
its identity from a counter (`World.next`).  Calls into other modules are
recorded, in program order, in `World.trace`; the outcome of every call that
can fail is an input (`Collaborators`).  A failed `g_assert` is the result
`none`.

Strings the C code tests against `NULL` are `Option String`; strings it
hands to `strcmp` without a test are `String`.
-/

namespace Infinoted

/-- Contents of a `GError`. -/
structure GError where
  code : Nat
  deriving DecidableEq

/-- Compile-time switches of the translation unit. -/
structure BuildConfig where
  have_avahi : Bool
  have_libdaemon : Bool
  deriving DecidableEq

/-- An `InfdTcpServer` with the two construction properties the reload sets. -/
structure InfdTcpServer where
  id : Nat
  ipv6 : Bool
  local_port : Nat
  deriving DecidableEq

/-- An `InfdXmppServer` with the properties read or written by the reload. -/
structure InfdXmppServer where
  id : Nat
  tcp_server : InfdTcpServer
  security_policy : Nat
  credentials : Option Nat
  sasl_context : Option Nat
  sasl_mechanisms : Option String
  deriving DecidableEq

/-- The fields of `InfinotedOptions` used by the reload. -/
structure InfinotedOptions where
  port : Nat
  security_policy : Nat
  root_directory : String
  plugins : List String
  config_key_file : Option Nat
  sync_directory : Option String
  sync_interval : Nat
  sync_hook : String
  max_transformation_vdiff : Nat
  traffic_log_directory : Option String
  daemonize : Bool
  deriving DecidableEq

/-- The fields of `InfinotedStartup` used by the reload. -/
structure InfinotedStartup where
  id : Nat
  options : InfinotedOptions
  credentials : Option Nat
  sasl_context : Option Nat
  log : Option Nat
  deriving DecidableEq

/-- What a successful `infinoted_startup_new` hands back, apart from the
address of the new structure. -/
structure StartupContents where
  options : InfinotedOptions
  credentials : Option Nat
  sasl_context : Option Nat
  log : Option Nat
  deriving DecidableEq

/-- An `InfdStorage`; `is_filesystem` is `INFD_IS_FILESYSTEM_STORAGE`. -/
structure InfdStorage where
  id : Nat
  is_filesystem : Bool
  root_directory : String
  deriving DecidableEq

/-- An `InfXmlConnection`; `is_xmpp` is `INF_IS_XMPP_CONNECTION`. -/
structure InfXmlConnection where
  id : Nat
  is_xmpp : Bool
  deriving DecidableEq

/-- The `InfdDirectory` of the running server. -/
structure InfdDirectory where
  id : Nat
  storage : InfdStorage
  connections : List InfXmlConnection
  deriving DecidableEq

/-- An `InfinotedDirectorySync`. -/
structure InfinotedDirectorySync where
  id : Nat
  log : Option Nat
  sync_directory : String
  sync_interval : Nat
  sync_hook : String
  deriving DecidableEq

/-- An `InfinotedTransformationProtector`. -/
structure InfinotedTransformationProtector where
  id : Nat
  log : Option Nat
  max_vdiff : Nat
  deriving DecidableEq

/-- An `InfinotedTrafficLogger`. -/
structure InfinotedTrafficLogger where
  id : Nat
  log : Option Nat
  path : String
  deriving DecidableEq

/-- The `InfinotedRun` structure; `pool` lists the servers registered with
the `InfdServerPool`. -/
structure InfinotedRun where
  startup : InfinotedStartup
  io : Nat
  directory : InfdDirectory
  pool : List Nat
  plugin_manager : Option Nat
  xmpp4 : Option InfdXmppServer
  xmpp6 : Option InfdXmppServer
  dh_params : Option Nat
  dsync : Option InfinotedDirectorySync
  protector : Option InfinotedTransformationProtector
  traffic_logger : Option InfinotedTrafficLogger
  deriving DecidableEq

/-- Calls made by the reload into other modules. -/
inductive Event where
  | startup_new (result : Option Nat)
  | startup_free (startup : Nat)
  | log_set_directory (log directory : Nat)
  | dh_params_ensure (ok : Bool)
  | tcp_server_ref (tcp : Nat)
  | tcp_server_unref (tcp : Nat)
  | tcp_server_new (tcp : Nat) (ipv6 : Bool) (port : Nat)
  | tcp_server_bind (tcp : Nat) (ok : Bool)
  | tcp_server_open (tcp : Nat) (ok : Bool)
  | storage_ref (storage : Nat)
  | storage_unref (storage : Nat)
  | filesystem_storage_new (storage : Nat) (root_directory : String)
  | plugin_manager_new (result : Option Nat)
  | plugin_manager_free (manager : Nat)
  | options_drop_config_file (startup : Nat)
  | pool_remove_server (xmpp : Nat)
  | pool_add_server (xmpp : Nat)
  | pool_add_local_publisher (xmpp : Nat)
  | xml_server_close (xmpp : Nat)
  | xmpp_server_unref (xmpp : Nat)
  | xmpp_server_new (xmpp tcp : Nat) (policy : Nat) (credentials : Option Nat)
  | xmpp_server_set_credentials (xmpp : Nat) (credentials : Option Nat)
  | xmpp_server_set_security_policy (xmpp : Nat) (policy : Nat)
  | xmpp_server_set_sasl_context (xmpp : Nat) (context : Option Nat)
  | xmpp_server_set_sasl_mechanisms (xmpp : Nat) (mechanisms : Option String)
  | directory_set_storage (directory storage : Nat)
  | directory_sync_new (dsync : Nat)
  | directory_sync_free (dsync : Nat)
  | transformation_protector_new (protector : Nat)
  | transformation_protector_free (protector : Nat)
  | transformation_protector_set_max_vdiff (protector : Nat) (vdiff : Nat)
  | traffic_logger_new (logger : Nat)
  | traffic_logger_free (logger : Nat)
  | xmpp_connection_reset_sasl_authentication (connection : Nat)
      (context : Option Nat) (mechanisms : Option String)
  deriving DecidableEq

/-- Outcome of each fallible call: `none` is success, `some e` is failure
with error `e` (for `startup_new`, `Except.error e`). -/
structure Collaborators where
  startup_new : Except GError StartupContents
  dh_params_ensure : Option GError
  bind6 : Option GError
  bind4 : Option GError
  plugin_manager_new : Option GError
  open6 : Option GError
  open4 : Option GError

/-- The running server, the allocation counter and the calls made so far. -/
structure World where
  run : InfinotedRun
  next : Nat
  trace : List Event
  deriving DecidableEq

/-- Record a call. -/
def World.emit (w : World) (e : Event) : World :=
  { w with trace := w.trace ++ [e] }

/-- Take a fresh object identity. -/
def World.alloc (w : World) : World :=
  { w with next := w.next + 1 }

/-- What `infinoted_config_reload` leaves behind when it returns: the
`gboolean`, the content of `*error`, and the world. -/
structure ReloadResult where
  ret : Bool
  error : Option GError
  world : World
  deriving DecidableEq

/-- Modelled from the spec: `infd_server_pool_remove_server` (libinfinity's
server pool is not among the sources); "remove ... the old ... listeners from
the server's pool": afterwards the server is no member of the pool. -/
def infd_server_pool_remove_server (pool : List Nat) (xmpp : Nat) : List Nat :=
  pool.filter (fun y => y != xmpp)

/-- Modelled from the spec: `infd_server_pool_add_server`; "register each
into the pool". -/
def infd_server_pool_add_server (pool : List Nat) (xmpp : Nat) : List Nat :=
  pool ++ [xmpp]

/-- The callback `infinoted_config_reload_update_connection_sasl_context`
(lines 33-45), with `userdata` the SASL context. -/
def infinoted_config_reload_update_connection_sasl_context
    (xml : InfXmlConnection) (userdata : Option Nat) (w : World) : World :=
  if !xml.is_xmpp then w
  else
    w.emit (.xmpp_connection_reset_sasl_authentication xml.id userdata
      (if userdata.isSome then some "PLAIN" else none))

/-- Modelled from the spec: `infd_directory_foreach_connection` visits
"every currently open connection" of the directory once, in order. -/
def infd_directory_foreach_connection (directory : InfdDirectory)
    (func : InfXmlConnection → Option Nat → World → World)
    (userdata : Option Nat) (w : World) : World :=
  directory.connections.foldl (fun acc xml => func xml userdata acc) w

/-- Lines 110-114: take a reference to the TCP server of each running XMPP
server, IPv6 first. -/
def get_tcp_servers (w : World) : World :=
  let w := match w.run.xmpp6 with
    | some x => w.emit (.tcp_server_ref x.tcp_server.id)
    | none => w
  match w.run.xmpp4 with
  | some x => w.emit (.tcp_server_ref x.tcp_server.id)
  | none => w

/-- Lines 116-118: the port the server currently runs on, read from the IPv6
server if there is one and from the IPv4 server otherwise; `none` when the
assertion `tcp4 != NULL || tcp6 != NULL` fails. -/
def current_port (run : InfinotedRun) : Option Nat :=
  match run.xmpp6, run.xmpp4 with
  | some x6, _ => some x6.tcp_server.local_port
  | none, some x4 => some x4.tcp_server.local_port
  | none, none => none

/-- Lines 120-122: drop the references again, IPv4 first. -/
def unref_tcp_servers (w : World) : World :=
  let w := match w.run.xmpp4 with
    | some x => w.emit (.tcp_server_unref x.tcp_server.id)
    | none => w
  match w.run.xmpp6 with
  | some x => w.emit (.tcp_server_unref x.tcp_server.id)
  | none => w

/-- Result of lines 125-170. -/
inductive BindResult where
  | failed (error : GError) (w : World)
  | bound (tcp6 tcp4 : Option InfdTcpServer) (w : World)

/-- Lines 129-169: create and bind the two new TCP servers.  `failed` is the
branch that propagates `local_error`; the caller frees the startup. -/
def bind_new_servers (env : Collaborators) (port : Nat) (w : World) : BindResult :=
  let t6 : InfdTcpServer := { id := w.next, ipv6 := true, local_port := port }
  let w := (w.alloc.emit (.tcp_server_new t6.id true port)).emit
    (.tcp_server_bind t6.id env.bind6.isNone)
  -- the IPv6 bind is called with a NULL error location
  let tcp6 : Option InfdTcpServer := if env.bind6.isNone then some t6 else none
  let w := if env.bind6.isNone then w else w.emit (.tcp_server_unref t6.id)
  let t4 : InfdTcpServer := { id := w.next, ipv6 := false, local_port := port }
  let w := (w.alloc.emit (.tcp_server_new t4.id false port)).emit
    (.tcp_server_bind t4.id env.bind4.isNone)
  match env.bind4 with
  | none => .bound tcp6 (some t4) w
  | some local_error =>
    let w := w.emit (.tcp_server_unref t4.id)
    if tcp6.isSome then .bound tcp6 none w
    else .failed local_error w

/-- Result of lines 232-267. -/
structure OpenResult where
  tcp6 : Option InfdTcpServer
  tcp4 : Option InfdTcpServer
  local_error : Option GError
  w : World

/-- Lines 234-253: open the bound servers, dropping each one that fails. -/
def open_new_servers (env : Collaborators) (tcp6 tcp4 : Option InfdTcpServer)
    (w : World) : OpenResult :=
  let r6 : OpenResult :=
    match tcp6 with
    | none => { tcp6 := none, tcp4 := tcp4, local_error := none, w := w }
    | some t6 =>
      let w := w.emit (.tcp_server_open t6.id env.open6.isNone)
      match env.open6 with
      | none => { tcp6 := some t6, tcp4 := tcp4, local_error := none, w := w }
      | some e =>
        { tcp6 := none, tcp4 := tcp4, local_error := some e,
          w := w.emit (.tcp_server_unref t6.id) }
  match r6.tcp4 with
  | none => r6
  | some t4 =>
    let w := r6.w.emit (.tcp_server_open t4.id env.open4.isNone)
    match env.open4 with
    | none => { r6 with w := w }
    | some e =>
      { r6 with
        tcp4 := none
        local_error := if r6.local_error.isSome then r6.local_error else some e
        w := w.emit (.tcp_server_unref t4.id) }

/-- Lines 276-279 and 284-287: unregister, close and release an old server.
The caller clears the field of `run`. -/
def close_old_server (x : InfdXmppServer) (w : World) : World :=
  let w := { w with
    run := { w.run with pool := infd_server_pool_remove_server w.run.pool x.id } }
  ((w.emit (.pool_remove_server x.id)).emit (.xml_server_close x.id)).emit
    (.xmpp_server_unref x.id)

/-- Lines 292-300 and 315-323: `infd_xmpp_server_new` around a new TCP server,
with no SASL context and no mechanisms, and the release of the local
reference to the TCP server. -/
def new_xmpp_server (startup : InfinotedStartup) (t : InfdTcpServer) (w : World) :
    InfdXmppServer × World :=
  let x : InfdXmppServer :=
    { id := w.next, tcp_server := t,
      security_policy := startup.options.security_policy,
      credentials := startup.credentials,
      sasl_context := none, sasl_mechanisms := none }
  (x, (w.alloc.emit (.xmpp_server_new x.id t.id startup.options.security_policy
    startup.credentials)).emit (.tcp_server_unref t.id))

/-- Lines 302-310 and 325-333: register a new server with the pool and, with
Avahi compiled in, with the local publisher. -/
def register_server (cfg : BuildConfig) (x : Nat) (w : World) : World :=
  let w := { w with
    run := { w.run with pool := infd_server_pool_add_server w.run.pool x } }
  let w := w.emit (.pool_add_server x)
  if cfg.have_avahi then w.emit (.pool_add_local_publisher x) else w

/-- The `g_object_set` of lines 343-348 and 353-358: "credentials" first,
then "security-policy". -/
def set_credentials_and_policy (startup : InfinotedStartup) (x : InfdXmppServer)
    (w : World) : InfdXmppServer × World :=
  let x := { x with credentials := startup.credentials }
  let w := w.emit (.xmpp_server_set_credentials x.id startup.credentials)
  let x := { x with security_policy := startup.options.security_policy }
  let w := w.emit (.xmpp_server_set_security_policy x.id startup.options.security_policy)
  (x, w)

/-- Lines 271-360: with new servers, close the old ones and wrap the new
ones; without, set the new certificate settings on the existing ones. -/
def update_servers (cfg : BuildConfig) (startup : InfinotedStartup)
    (tcp6 tcp4 : Option InfdTcpServer) (w : World) : World :=
  if tcp4.isSome || tcp6.isSome then
    let w := match w.run.xmpp6 with
      | some x =>
        let w := close_old_server x w
        { w with run := { w.run with xmpp6 := none } }
      | none => w
    let w := match w.run.xmpp4 with
      | some x =>
        let w := close_old_server x w
        { w with run := { w.run with xmpp4 := none } }
      | none => w
    let w := match tcp6 with
      | some t =>
        let r := new_xmpp_server startup t w
        let w := { r.2 with run := { r.2.run with xmpp6 := some r.1 } }
        register_server cfg r.1.id w
      | none => w
    match tcp4 with
    | some t =>
      let r := new_xmpp_server startup t w
      let w := { r.2 with run := { r.2.run with xmpp4 := some r.1 } }
      register_server cfg r.1.id w
    | none => w
  else
    let w := match w.run.xmpp6 with
      | some x =>
        let r := set_credentials_and_policy startup x w
        { r.2 with run := { r.2.run with xmpp6 := some r.1 } }
      | none => w
    match w.run.xmpp4 with
    | some x =>
      let r := set_credentials_and_policy startup x w
      { r.2 with run := { r.2.run with xmpp4 := some r.1 } }
    | none => w

/-- Lines 362-371: install the new storage, if one was created. -/
def update_storage (filesystem_storage : Option InfdStorage) (w : World) : World :=
  match filesystem_storage with
  | some s =>
    let w := { w with
      run := { w.run with directory := { w.run.directory with storage := s } } }
    (w.emit (.directory_set_storage w.run.directory.id s.id)).emit (.storage_unref s.id)
  | none => w

/-- Lines 373-375: replace the plugin manager; `none` when the assertion
`run->plugin_manager != NULL` fails. -/
def update_plugin_manager (plugin_manager : Nat) (w : World) : Option World :=
  match w.run.plugin_manager with
  | none => none
  | some old =>
    some ({ w with run := { w.run with plugin_manager := some plugin_manager } }.emit
      (.plugin_manager_free old))

/-- Lines 377-387: the condition under which the directory synchronization
is torn down and set up again. -/
def dsync_needs_update (options : InfinotedOptions)
    (dsync : Option InfinotedDirectorySync) : Bool :=
  match dsync with
  | none => decide (options.sync_interval > 0) && options.sync_directory.isSome
  | some d =>
    options.sync_interval != d.sync_interval ||
      (match options.sync_directory with
       | none => true
       | some dir => dir != d.sync_directory || options.sync_hook != d.sync_hook)

/-- Lines 377-406: the directory synchronization. -/
def update_dsync (startup : InfinotedStartup) (w : World) : World :=
  if dsync_needs_update startup.options w.run.dsync then
    let w := match w.run.dsync with
      | some d =>
        { w with run := { w.run with dsync := none } }.emit (.directory_sync_free d.id)
      | none => w
    match startup.options.sync_directory with
    | some dir =>
      if startup.options.sync_interval > 0 then
        let d : InfinotedDirectorySync :=
          { id := w.next, log := startup.log, sync_directory := dir,
            sync_interval := startup.options.sync_interval,
            sync_hook := startup.options.sync_hook }
        { w.alloc with run := { w.run with dsync := some d } }.emit
          (.directory_sync_new d.id)
      else w
    | none => w
  else w

/-- Lines 408-432: the transformation protector. -/
def update_protector (startup : InfinotedStartup) (w : World) : World :=
  match w.run.protector with
  | some p =>
    if startup.options.max_transformation_vdiff > 0 then
      let p := { p with max_vdiff := startup.options.max_transformation_vdiff }
      let w := w.emit (.transformation_protector_set_max_vdiff p.id
        startup.options.max_transformation_vdiff)
      let p := { p with log := startup.log }
      { w with run := { w.run with protector := some p } }
    else
      { w with run := { w.run with protector := none } }.emit
        (.transformation_protector_free p.id)
  | none =>
    if startup.options.max_transformation_vdiff > 0 then
      let p : InfinotedTransformationProtector :=
        { id := w.next, log := startup.log,
          max_vdiff := startup.options.max_transformation_vdiff }
      { w.alloc with run := { w.run with protector := some p } }.emit
        (.transformation_protector_new p.id)
    else w

/-- Lines 445-449 and 461-465: `infinoted_traffic_logger_new`. -/
def new_traffic_logger (startup : InfinotedStartup) (path : String) (w : World) : World :=
  let t : InfinotedTrafficLogger := { id := w.next, log := startup.log, path := path }
  { w.alloc with run := { w.run with traffic_logger := some t } }.emit
    (.traffic_logger_new t.id)

/-- Lines 434-467: the traffic logger. -/
def update_traffic_logger (startup : InfinotedStartup) (w : World) : World :=
  match w.run.traffic_logger with
  | some t =>
    let changed : Bool :=
      match startup.options.traffic_log_directory with
      | none => true
      | some dir => t.path != dir
    if changed then
      let w := { w with run := { w.run with traffic_logger := none } }.emit
        (.traffic_logger_free t.id)
      match startup.options.traffic_log_directory with
      | some path => new_traffic_logger startup path w
      | none => w
    else
      { w with run := { w.run with traffic_logger := some { t with log := startup.log } } }
  | none =>
    match startup.options.traffic_log_directory with
    | some path => new_traffic_logger startup path w
    | none => w

/-- The `g_object_set` of lines 477-482 and 487-492: "sasl-context", then
"sasl-mechanisms". -/
def set_sasl (startup : InfinotedStartup) (x : InfdXmppServer) (w : World) :
    InfdXmppServer × World :=
  let mechanisms : Option String := if startup.sasl_context.isSome then some "PLAIN" else none
  let x := { x with sasl_context := startup.sasl_context }
  let w := w.emit (.xmpp_server_set_sasl_context x.id startup.sasl_context)
  let x := { x with sasl_mechanisms := mechanisms }
  let w := w.emit (.xmpp_server_set_sasl_mechanisms x.id mechanisms)
  (x, w)

/-- Lines 475-503: give the servers and every connection the new SASL
context. -/
def update_sasl (startup : InfinotedStartup) (w : World) : World :=
  let w := match w.run.xmpp4 with
    | some x =>
      let r := set_sasl startup x w
      { r.2 with run := { r.2.run with xmpp4 := some r.1 } }
    | none => w
  let w := match w.run.xmpp6 with
    | some x =>
      let r := set_sasl startup x w
      { r.2 with run := { r.2.run with xmpp6 := some r.1 } }
    | none => w
  infd_directory_foreach_connection w.run.directory
    infinoted_config_reload_update_connection_sasl_context startup.sasl_context w

/-- Lines 505-506: free the previous startup and install the new one. -/
def install_startup (startup : InfinotedStartup) (w : World) : World :=
  let w := w.emit (.startup_free w.run.startup.id)
  { w with run := { w.run with startup := startup } }

/-- What the fallible part of the reload has built when it is through: the
locals `startup`, `tcp6`, `tcp4`, `filesystem_storage`, `plugin_manager`. -/
structure Candidates where
  startup : InfinotedStartup
  tcp6 : Option InfdTcpServer
  tcp4 : Option InfdTcpServer
  filesystem_storage : Option InfdStorage
  plugin_manager : Nat
  deriving DecidableEq

/-- Lines 469-473: with libdaemon compiled in, the new options take over
whether the server has been daemonized. -/
def keep_daemonize (cfg : BuildConfig) (startup current : InfinotedStartup) :
    InfinotedStartup :=
  if cfg.have_libdaemon then
    { startup with
      options := { startup.options with daemonize := current.options.daemonize } }
  else startup

/-- Lines 269-508: everything after the last step that can fail.  `none` when
the assertion on the plugin manager fails. -/
def commit (cfg : BuildConfig) (c : Candidates) (w : World) : Option World :=
  let w := update_servers cfg c.startup c.tcp6 c.tcp4 w
  let w := update_storage c.filesystem_storage w
  match update_plugin_manager c.plugin_manager w with
  | none => none
  | some w =>
    let w := update_dsync c.startup w
    let w := update_protector c.startup w
    let w := update_traffic_logger c.startup w
    let startup := keep_daemonize cfg c.startup w.run.startup
    let w := update_sasl startup w
    some (install_startup startup w)

/-- Lines 104-105, 166-167, 218-219, 260-261: free the new startup and return
`FALSE`, with `error` in `*error`. -/
def fail_with (error : Option GError) (startup : InfinotedStartup) (w : World) :
    ReloadResult :=
  { ret := false, error := error, world := w.emit (.startup_free startup.id) }

/-- Where lines 83-267 leave the function: a failed assertion, a `return`, or
the point "beyond which nothing can fail". -/
inductive Prepared where
  | assert_failed
  | returned (r : ReloadResult)
  | ready (c : Candidates) (w : World)

/-- The structure a successful `infinoted_startup_new` returns, at address
`id`. -/
def startup_of (id : Nat) (contents : StartupContents) : InfinotedStartup :=
  { id := id, options := contents.options, credentials := contents.credentials,
    sasl_context := contents.sasl_context, log := contents.log }

/-- Line 214, `infinoted_options_drop_config_file`: the options give up the
key file. -/
def drop_config_file (startup : InfinotedStartup) : InfinotedStartup :=
  { startup with options := { startup.options with config_key_file := none } }

/-- Lines 83-88: the new startup exists; its log, if any, is associated with
the directory. -/
def startup_created (startup : InfinotedStartup) (w : World) : World :=
  let w := w.alloc.emit (.startup_new (some startup.id))
  match startup.log with
  | some log => w.emit (.log_set_directory log w.run.directory.id)
  | none => w

/-- Lines 92-100: `infinoted_dh_params_ensure` is called when the new startup
has credentials.  It works on `dh_params`, a local copy of `run->dh_params`
that is not written back. -/
def ensure_dh_params (env : Collaborators) (startup : InfinotedStartup) (w : World) :
    World :=
  if startup.credentials.isSome then
    w.emit (.dh_params_ensure env.dh_params_ensure.isNone)
  else w

/-- Line 102: the error of `infinoted_dh_params_ensure`, if it was called and
failed. -/
def dh_params_error (env : Collaborators) (startup : InfinotedStartup) : Option GError :=
  if startup.credentials.isSome then env.dh_params_ensure else none

/-- Lines 175-185: fetch the storage of the directory, read its root
directory and release it. -/
def read_storage (w : World) : World :=
  (w.emit (.storage_ref w.run.directory.storage.id)).emit
    (.storage_unref w.run.directory.storage.id)

/-- Lines 205-214: `infinoted_plugin_manager_new`, then
`infinoted_options_drop_config_file`. -/
def create_plugin_manager (env : Collaborators) (startup : InfinotedStartup) (w : World) :
    World :=
  let w := match env.plugin_manager_new with
    | some _ => w.emit (.plugin_manager_new none)
    | none => w.alloc.emit (.plugin_manager_new (some w.next))
  w.emit (.options_drop_config_file startup.id)

/-- Lines 222-228: the local `filesystem_storage`; a new storage when the
root directory changes. -/
def new_filesystem_storage (startup : InfinotedStartup) (w : World) : Option InfdStorage :=
  if w.run.directory.storage.root_directory != startup.options.root_directory then
    some { id := w.next, is_filesystem := true,
           root_directory := startup.options.root_directory }
  else none

/-- Lines 222-228: the call of `infd_filesystem_storage_new`. -/
def create_storage (startup : InfinotedStartup) (w : World) : World :=
  if w.run.directory.storage.root_directory != startup.options.root_directory then
    w.alloc.emit (.filesystem_storage_new w.next startup.options.root_directory)
  else w

/-- Lines 258-259: release the plugin manager and the new storage. -/
def release_candidates (plugin_manager : Nat) (filesystem_storage : Option InfdStorage)
    (w : World) : World :=
  let w := w.emit (.plugin_manager_free plugin_manager)
  match filesystem_storage with
  | some s => w.emit (.storage_unref s.id)
  | none => w

/-- Lines 175-267: read the storage root, build the plugin manager, create
the new storage if the root changed, open the new servers. -/
def prepare_after_bind (env : Collaborators) (startup : InfinotedStartup)
    (tcp6 tcp4 : Option InfdTcpServer) (w : World) : Prepared :=
  if !w.run.directory.storage.is_filesystem then .assert_failed
  else
    let w := read_storage w
    let plugin_manager : Nat := w.next
    let w := create_plugin_manager env startup w
    let startup := drop_config_file startup
    match env.plugin_manager_new with
    | some e => .returned (fail_with (some e) startup w)
    | none =>
      let filesystem_storage := new_filesystem_storage startup w
      let w := create_storage startup w
      if tcp4.isSome || tcp6.isSome then
        let o := open_new_servers env tcp6 tcp4 w
        if o.tcp4.isNone && o.tcp6.isNone then
          .returned (fail_with o.local_error startup
            (release_candidates plugin_manager filesystem_storage o.w))
        else
          .ready { startup := startup, tcp6 := o.tcp6, tcp4 := o.tcp4,
                   filesystem_storage := filesystem_storage,
                   plugin_manager := plugin_manager } o.w
      else
        .ready { startup := startup, tcp6 := tcp6, tcp4 := tcp4,
                 filesystem_storage := filesystem_storage,
                 plugin_manager := plugin_manager } w

/-- Lines 109-267, once the new startup has its Diffie-Hellman parameters. -/
def prepare_servers (env : Collaborators) (startup : InfinotedStartup) (w : World) :
    Prepared :=
  let w := get_tcp_servers w
  match current_port w.run with
  | none => .assert_failed
  | some port =>
    let w := unref_tcp_servers w
    if startup.options.port != port then
      match bind_new_servers env startup.options.port w with
      | .failed local_error w => .returned (fail_with (some local_error) startup w)
      | .bound tcp6 tcp4 w => prepare_after_bind env startup tcp6 tcp4 w
    else prepare_after_bind env startup none none w

/-- Lines 83-267: the part of the reload that can fail. -/
def prepare (env : Collaborators) (w : World) : Prepared :=
  match env.startup_new with
  | .error e =>
    .returned { ret := false, error := some e, world := w.emit (.startup_new none) }
  | .ok contents =>
    let startup := startup_of w.next contents
    let w := startup_created startup w
    let w := ensure_dh_params env startup w
    match dh_params_error env startup with
    | some e => .returned (fail_with (some e) startup w)
    | none => prepare_servers env startup w

/-- The function `infinoted_config_reload` (lines 58-509).  `none` is a failed
assertion. -/
def infinoted_config_reload (cfg : BuildConfig) (env : Collaborators) (w : World) :
    Option ReloadResult :=
  match prepare env w with
  | .assert_failed => none
  | .returned r => some r
  | .ready c w =>
    match commit cfg c w with
    | none => none
    | some w => some { ret := true, error := none, world := w }

/-- Groups of calls the properties below tell apart. -/
inductive EventClass where
  | listener
  | bundle
  | auth_reset
  | dsync
  | plugin
  | storage
  | protector
  | traffic
  | other
  deriving DecidableEq

/-- The group of a call: creating, binding or opening a TCP server or wrapping
it into an XMPP server is `listener`; freeing a startup is `bundle`;
resetting the authentication of a connection is `auth_reset`; creating or
freeing the directory synchronization, the protector, the traffic logger is
`dsync`, `protector`, `traffic`; constructing a plugin manager or a storage is
`plugin`, `storage`. -/
def Event.cls : Event → EventClass
  | .tcp_server_new _ _ _ => .listener
  | .tcp_server_bind _ _ => .listener
  | .tcp_server_open _ _ => .listener
  | .xmpp_server_new _ _ _ _ => .listener
  | .startup_free _ => .bundle
  | .xmpp_connection_reset_sasl_authentication _ _ _ => .auth_reset
  | .directory_sync_new _ => .dsync
  | .directory_sync_free _ => .dsync
  | .plugin_manager_new _ => .plugin
  | .filesystem_storage_new _ _ => .storage
  | .transformation_protector_new _ => .protector
  | .transformation_protector_free _ => .protector
  | .transformation_protector_set_max_vdiff _ _ => .protector
  | .traffic_logger_new _ => .traffic
  | .traffic_logger_free _ => .traffic
  | _ => .other

/-- The trace `t'` continues `t` with calls of the groups in `S` only. -/
def Emits (S : List EventClass) (t t' : List Event) : Prop :=
  ∃ evs, t' = t ++ evs ∧ ∀ e ∈ evs, e.cls ∈ S

/-- The mechanism list that goes with a SASL context: "PLAIN" when there is
one, none otherwise (lines 43, 480, 490). -/
def mechanisms_for (context : Option Nat) : Option String :=
  if context.isSome then some "PLAIN" else none

/-- The calls `inf_xmpp_connection_reset_sasl_authentication` for the XMPP
connections among `connections`, in order. -/
def sasl_resets (connections : List InfXmlConnection) (context : Option Nat) : List Event :=
  (connections.filter (fun c => c.is_xmpp)).map
    (fun c => .xmpp_connection_reset_sasl_authentication c.id context (mechanisms_for context))

/-- A server with the properties "sasl-context" and "sasl-mechanisms" set for
`context`. -/
def with_sasl (context : Option Nat) (x : InfdXmppServer) : InfdXmppServer :=
  { x with sasl_context := context, sasl_mechanisms := mechanisms_for context }

/-! ## Vocabulary of the properties and example inputs -/


/-- The server of one address family: `run->xmpp6` for IPv6, `run->xmpp4` for
IPv4. -/
def InfinotedRun.xmpp (run : InfinotedRun) (ipv6 : Bool) : Option InfdXmppServer :=
  if ipv6 then run.xmpp6 else run.xmpp4

/-- At least one of the two servers is active. -/
def InfinotedRun.has_listener (run : InfinotedRun) : Prop :=
  run.xmpp6.isSome = true ∨ run.xmpp4.isSome = true

/-- Options of the example server. -/
def example_options : InfinotedOptions :=
  { port := 6523, security_policy := 0, root_directory := "/srv", plugins := [],
    config_key_file := none, sync_directory := some "/sync", sync_interval := 60,
    sync_hook := "hook", max_transformation_vdiff := 0, traffic_log_directory := none,
    daemonize := false }

/-- An example server: IPv6 only, on port 6523, with a running directory
synchronization, one XMPP connection and one other connection. -/
def example_run : InfinotedRun :=
  { startup := { id := 0, options := example_options, credentials := none,
                 sasl_context := none, log := some 100 },
    io := 1,
    directory := { id := 2,
                   storage := { id := 3, is_filesystem := true, root_directory := "/srv" },
                   connections := [{ id := 10, is_xmpp := true }, { id := 11, is_xmpp := false }] },
    pool := [5],
    plugin_manager := some 4,
    xmpp4 := none,
    xmpp6 := some { id := 5, tcp_server := { id := 6, ipv6 := true, local_port := 6523 },
                    security_policy := 0, credentials := none, sasl_context := none,
                    sasl_mechanisms := none },
    dh_params := none,
    dsync := some { id := 7, log := some 100, sync_directory := "/sync",
                    sync_interval := 60, sync_hook := "hook" },
    protector := none,
    traffic_logger := none }

/-- The example server with the allocation counter above all its objects. -/
def example_world : World := { run := example_run, next := 20, trace := [] }

/-- Collaborators that all succeed and deliver `options`, credentials 201, a
SASL context 202 and a log 200. -/
def example_env (options : InfinotedOptions) : Collaborators :=
  { startup_new := .ok { options := options, credentials := some 201,
                         sasl_context := some 202, log := some 200 },
    dh_params_ensure := none, bind6 := none, bind4 := none, plugin_manager_new := none,
    open6 := none, open4 := none }

/-- The build configuration of the examples. -/
def example_cfg : BuildConfig := { have_avahi := true, have_libdaemon := false }

/-- The example: the plugin manager cannot be built. -/
def example_env_plugin_failure : Collaborators :=
  { example_env example_options with plugin_manager_new := some { code := 9 } }

/-- The example: a new port, on which only the IPv6 server can be bound, and
no plugin manager. -/
def example_env_port_plugin_failure : Collaborators :=
  { example_env { example_options with port := 7000 } with
    bind4 := some { code := 3 }, plugin_manager_new := some { code := 9 } }

/-- The result of a reload that is known to return. -/
def result_of (o : Option ReloadResult) : ReloadResult :=
  o.getD { ret := false, error := none, world := example_world }

/-- The example: a new port on which neither server can be bound. -/
def example_env_no_bind : Collaborators :=
  { example_env { example_options with port := 7000 } with
    bind6 := some { code := 2 }, bind4 := some { code := 3 } }

/-- The outcome of binding the new TCP server of one address family. -/
def Collaborators.bind (env : Collaborators) (ipv6 : Bool) : Option GError :=
  if ipv6 then env.bind6 else env.bind4

/-- The outcome of opening the new TCP server of one address family. -/
def Collaborators.opening (env : Collaborators) (ipv6 : Bool) : Option GError :=
  if ipv6 then env.open6 else env.open4

/-- The example: a new port, on which the IPv4 server can be bound but not
opened. -/
def example_env_ipv6_only : Collaborators :=
  { example_env { example_options with port := 7000 } with open4 := some { code := 3 } }

/-- The directory synchronization is enabled with an interval and a
directory: "enabled = positive interval and a target directory configured". -/
def sync_enabled (interval : Nat) (directory : Option String) : Bool :=
  decide (interval > 0) && directory.isSome

/-- The running directory synchronization and the new options differ in the
enabled/disabled state, the interval, the target directory or the hook.  An
absent task is disabled and has nothing else to compare. -/
def dsync_changed (options : InfinotedOptions) (dsync : Option InfinotedDirectorySync) : Bool :=
  match dsync with
  | none => sync_enabled options.sync_interval options.sync_directory
  | some d =>
    sync_enabled options.sync_interval options.sync_directory !=
        sync_enabled d.sync_interval (some d.sync_directory) ||
      options.sync_interval != d.sync_interval ||
      options.sync_directory != some d.sync_directory ||
      options.sync_hook != d.sync_hook

/-! ## `infinoted-startup.c`

The startup of `src/infinoted/infinoted-startup.c`.  That file is of another
revision than the reload above: its `InfinotedStartup` has a private key, a
certificate array and a `Gsasl` handle and no log, so it gets a record of its
own.  A handle is a natural number; the trace lists, in program order, the
calls that acquire or release a resource. -/

namespace Startup

/-- Modelled from the spec: the value of
`INF_XMPP_CONNECTION_SECURITY_ONLY_UNSECURED`, whose header is not among the
sources; the first of the "enumerated TLS requirement level (unsecured-only /
allow / require)". -/
def INF_XMPP_CONNECTION_SECURITY_ONLY_UNSECURED : Nat := 0

/-- The fields of `InfinotedOptions` used by `infinoted-startup.c`. -/
structure InfinotedOptions where
  security_policy : Nat
  create_key : Bool
  key_file : String
  create_certificate : Bool
  certificate_file : String
  certificate_chain_file : Option String
  password : Option String
  deriving DecidableEq

/-- The `InfinotedStartup` of `infinoted-startup.c`; `none` is `NULL`. -/
structure InfinotedStartup where
  options : Option InfinotedOptions
  private_key : Option Nat
  certificates : Option (List Nat)
  n_certificates : Nat
  credentials : Option Nat
  gsasl : Option Nat
  deriving DecidableEq

/-- The calls that acquire or release a resource. -/
inductive Event where
  | inf_init
  | inf_deinit
  | slice_new
  | slice_free
  | options_new
  | options_free
  | privkey_new (key : Nat)
  | privkey_deinit (key : Nat)
  | crt_new (crt : Nat)
  | crt_deinit (crt : Nat)
  | array_free
  | credentials_new (credentials : Nat)
  | credentials_unref (credentials : Nat)
  | gsasl_init (gsasl : Nat)
  | gsasl_done (gsasl : Nat)
  deriving DecidableEq

/-- Outcome of each fallible call of the file.  For `load_chain_file` the
certificates are the ones read from the chain file; when it fails, the array
it was given still holds what the certificate file gave.  A failed
`gsasl_init` leaves the handle `NULL`. -/
structure Calls where
  inf_init : Option GError
  options_new : Except GError InfinotedOptions
  create_dirname_key : Option GError
  creds_create_key : Except GError Nat
  creds_write_key : Option GError
  creds_read_key : Except GError Nat
  create_dirname_certificate : Option GError
  create_self_signed_certificate : Except GError Nat
  save_file : Option GError
  load_file : Except GError (List Nat)
  load_chain_file : Except GError (List Nat)
  create_credentials : Except GError Nat
  gsasl_init : Except GError Nat

/-- Lines 31-39, `infinoted_startup_free_certificate_array`: the loop calls
`gnutls_x509_crt_deinit` on `certificates[0]` to
`certificates[n_certificates - 1]`, then the array is freed.  Reading beyond
the array is `none`. -/
def infinoted_startup_free_certificate_array (certificates : List Nat)
    (n_certificates : Nat) (t : List Event) : Option (List Event) :=
  if n_certificates ≤ certificates.length then
    some (t ++ (certificates.take n_certificates).map Event.crt_deinit ++ [.array_free])
  else none

/-- Lines 41-73, `infinoted_startup_load_key`: the key or the error, and the
trace. -/
def infinoted_startup_load_key (env : Calls) (create_key : Bool) (t : List Event) :
    Except GError Nat × List Event :=
  if create_key then
    match env.create_dirname_key with
    | some e => (.error e, t)
    | none =>
      match env.creds_create_key with
      | .error e => (.error e, t)
      | .ok key =>
        let t := t ++ [.privkey_new key]
        match env.creds_write_key with
        | some e => (.error e, t ++ [.privkey_deinit key])
        | none => (.ok key, t)
  else
    match env.creds_read_key with
    | .error e => (.error e, t)
    | .ok key => (.ok key, t ++ [.privkey_new key])

/-- What `infinoted_startup_load_certificate` leaves behind: the returned
array (`none` is `NULL`), `*n_certificates`, `*error` and the trace. -/
structure LoadedCertificates where
  result : Option (List Nat)
  n_certificates : Nat
  error : Option GError
  trace : List Event
  deriving DecidableEq

/-- Lines 75-132, `infinoted_startup_load_certificate`; `n_certificates` is
the value of `*n_certificates` on entry. -/
def infinoted_startup_load_certificate (env : Calls)
    (create_self_signed_certificate : Bool) (certificate_chain_file : Option String)
    (n_certificates : Nat) (t : List Event) : Option LoadedCertificates :=
  if create_self_signed_certificate then
    match env.create_dirname_certificate with
    | some e => some { result := none, n_certificates := n_certificates, error := some e,
                       trace := t }
    | none =>
      match env.create_self_signed_certificate with
      | .error e => some { result := none, n_certificates := n_certificates, error := some e,
                           trace := t }
      | .ok cert =>
        let t := t ++ [.crt_new cert]
        match env.save_file with
        | some e => some { result := none, n_certificates := n_certificates, error := some e,
                           trace := t ++ [.crt_deinit cert] }
        | none => some { result := some [cert], n_certificates := 1, error := none, trace := t }
  else
    match env.load_file with
    | .error e => some { result := none, n_certificates := n_certificates, error := some e,
                         trace := t }
    | .ok certs =>
      let t := t ++ certs.map Event.crt_new
      match certificate_chain_file with
      | none => some { result := some certs, n_certificates := certs.length, error := none,
                       trace := t }
      | some _ =>
        match env.load_chain_file with
        | .error e =>
          match infinoted_startup_free_certificate_array certs n_certificates t with
          | none => none
          | some t => some { result := none, n_certificates := n_certificates,
                             error := some e, trace := t }
        | .ok chain =>
          some { result := some (certs ++ chain), n_certificates := (certs ++ chain).length,
                 error := none, trace := t ++ chain.map Event.crt_new }

/-- The startup under construction, `*error`, and the trace. -/
structure State where
  startup : InfinotedStartup
  error : Option GError
  trace : List Event
  deriving DecidableEq

/-- Lines 134-174, `infinoted_startup_load_credentials`, for a startup whose
options are `options`: the `gboolean` and the state. -/
def infinoted_startup_load_credentials (env : Calls) (options : InfinotedOptions)
    (s : State) : Option (Bool × State) :=
  if options.security_policy != INF_XMPP_CONNECTION_SECURITY_ONLY_UNSECURED then
    let k := infinoted_startup_load_key env options.create_key s.trace
    match k.1 with
    | .error e => some (false, { s with error := some e, trace := k.2 })
    | .ok key =>
      let s := { s with startup := { s.startup with private_key := some key }, trace := k.2 }
      match infinoted_startup_load_certificate env options.create_certificate
          options.certificate_chain_file s.startup.n_certificates s.trace with
      | none => none
      | some l =>
        let s := { s with
          startup := { s.startup with certificates := l.result,
                                      n_certificates := l.n_certificates },
          trace := l.trace }
        match l.result with
        | none => some (false, { s with error := l.error })
        | some _ =>
          match env.create_credentials with
          | .error e => some (false, { s with error := some e })
          | .ok credentials =>
            some (true, { s with
              startup := { s.startup with credentials := some credentials },
              trace := s.trace ++ [.credentials_new credentials] })
  else some (true, s)

/-- Lines 176-224, `infinoted_startup_load_options`: the list of configuration
files is built and freed again; `infinoted_options_new` gives the options. -/
def infinoted_startup_load_options (env : Calls) (s : State) : Bool × State :=
  match env.options_new with
  | .error e => (false, { s with error := some e })
  | .ok options =>
    (true, { s with startup := { s.startup with options := some options },
                    trace := s.trace ++ [.options_new] })

/-- `Gsasl_property`, of the GNU SASL library: the one value the file names,
and the others by their number. -/
inductive Gsasl_property where
  | GSASL_VALIDATE_SIMPLE
  | other (code : Nat)
  deriving DecidableEq

/-- The two return codes of the GNU SASL library the file names. -/
inductive Gsasl_rc where
  | GSASL_OK
  | GSASL_AUTHENTICATION_ERROR
  deriving DecidableEq

/-- A `Gsasl_session`: the property `GSASL_PASSWORD` the client presented,
`none` when `gsasl_property_fast` gives `NULL`. -/
structure Gsasl_session where
  password : Option String
  deriving DecidableEq

/-- Lines 226-246, `infinoted_startup_gsasl_callback`, with `startup` the
callback hook of the `Gsasl` handle.  `none` is the failed assertion on the
password, or `strcmp` on a `NULL` property. -/
def infinoted_startup_gsasl_callback (startup : InfinotedStartup) (session : Gsasl_session)
    (prop : Gsasl_property) : Option Gsasl_rc :=
  match prop with
  | .GSASL_VALIDATE_SIMPLE =>
    match startup.options.bind (fun o => o.password) with
    | none => none
    | some password =>
      match session.password with
      | none => none
      | some prop_ptr =>
        if password = prop_ptr then some .GSASL_OK
        else some .GSASL_AUTHENTICATION_ERROR
  | _ => some .GSASL_AUTHENTICATION_ERROR

/-- Lines 248-275, `infinoted_startup_load`. -/
def infinoted_startup_load (env : Calls) (s : State) : Option (Bool × State) :=
  let o := infinoted_startup_load_options env s
  if o.1 = false then some (false, o.2)
  else
    match o.2.startup.options with
    | none => none
    | some options =>
      match infinoted_startup_load_credentials env options o.2 with
      | none => none
      | some (false, s) => some (false, s)
      | some (true, s) =>
        if options.password.isSome then
          match env.gsasl_init with
          | .error e => some (false, { s with error := some e })
          | .ok gsasl =>
            some (true, { s with startup := { s.startup with gsasl := some gsasl },
                                 trace := s.trace ++ [.gsasl_init gsasl] })
        else some (true, s)

/-- Lines 320-345, `infinoted_startup_free`.  `none` when the certificate
array is read beyond its end. -/
def infinoted_startup_free (startup : InfinotedStartup) (t : List Event) :
    Option (List Event) :=
  let t := match startup.credentials with
    | some credentials => t ++ [.credentials_unref credentials]
    | none => t
  let t := match startup.certificates with
    | some certificates =>
      infinoted_startup_free_certificate_array certificates startup.n_certificates t
    | none => some t
  match t with
  | none => none
  | some t =>
    let t := match startup.private_key with
      | some key => t ++ [.privkey_deinit key]
      | none => t
    let t := match startup.options with
      | some _ => t ++ [.options_free]
      | none => t
    let t := match startup.gsasl with
      | some gsasl => t ++ [.gsasl_done gsasl]
      | none => t
    some (t ++ [.slice_free, .inf_deinit])

/-- What `infinoted_startup_new` leaves behind: the returned startup (`none`
is `NULL`), `*error` and the trace. -/
structure Result where
  startup : Option InfinotedStartup
  error : Option GError
  trace : List Event
  deriving DecidableEq

/-- Lines 287-312, `infinoted_startup_new`. -/
def infinoted_startup_new (env : Calls) : Option Result :=
  match env.inf_init with
  | some e => some { startup := none, error := some e, trace := [] }
  | none =>
    let s : State :=
      { startup := { options := none, private_key := none, certificates := none,
                     n_certificates := 0, credentials := none, gsasl := none },
        error := none, trace := [.inf_init, .slice_new] }
    match infinoted_startup_load env s with
    | none => none
    | some (false, s) =>
      match infinoted_startup_free s.startup s.trace with
      | none => none
      | some t => some { startup := none, error := s.error, trace := t }
    | some (true, s) => some { startup := some s.startup, error := s.error, trace := s.trace }

/-- The calls by which `infinoted_startup_free` releases the parts of a
startup whose certificate count is the length of its certificate array, in
the order of the amended C14: the credentials (the credential handle, the
certificates and their array, the private key), the options, the `Gsasl`
handle, and last the startup itself and the reference to the runtime; an
absent part gives no call. -/
def release_order (startup : InfinotedStartup) : List Event :=
  (match startup.credentials with
    | some credentials => [.credentials_unref credentials]
    | none => []) ++
  (match startup.certificates with
    | some certificates => certificates.map Event.crt_deinit ++ [.array_free]
    | none => []) ++
  (match startup.private_key with
    | some key => [.privkey_deinit key]
    | none => []) ++
  (match startup.options with
    | some _ => [.options_free]
    | none => []) ++
  (match startup.gsasl with
    | some gsasl => [.gsasl_done gsasl]
    | none => []) ++
  [.slice_free, .inf_deinit]

/-- Example options: TLS with a key file, a certificate file and a chain
file, and a password. -/
def example_options : InfinotedOptions :=
  { security_policy := 1, create_key := false, key_file := "key.pem",
    create_certificate := false, certificate_file := "cert.pem",
    certificate_chain_file := some "chain.pem", password := some "secret" }

/-- An example startup with every part present: key 4, certificates 1 and 2,
credentials 3, `Gsasl` handle 5. -/
def example_startup : InfinotedStartup :=
  { options := some example_options, private_key := some 4, certificates := some [1, 2],
    n_certificates := 2, credentials := some 3, gsasl := some 5 }

/-- Example calls that all succeed: key 4, certificates 1 and 2 from the
certificate file, certificate 6 from the chain file, credentials 3, `Gsasl`
handle 5. -/
def example_calls : Calls :=
  { inf_init := none, options_new := .ok example_options, create_dirname_key := none,
    creds_create_key := .ok 4, creds_write_key := none, creds_read_key := .ok 4,
    create_dirname_certificate := none, create_self_signed_certificate := .ok 1,
    save_file := none, load_file := .ok [1, 2], load_chain_file := .ok [6],
    create_credentials := .ok 3, gsasl_init := .ok 5 }

/-- The example calls, but the chain file cannot be loaded. -/
def example_calls_chain_failure : Calls :=
  { example_calls with load_chain_file := .error { code := 7 } }

/-- The kinds of resource a call of `infinoted_startup_new` acquires: the
reference to the runtime (`inf_init`), the startup structure, the options,
the private key, a certificate, the credentials, the `Gsasl` handle. -/
inductive Kind where
  | runtime
  | slice
  | options
  | key
  | certificate
  | credentials
  | gsasl
  deriving DecidableEq

/-- The resource a call acquires, by kind and handle; the runtime, the
structure and the options have the handle 0. -/
def Event.acquires : Event → Option (Kind × Nat)
  | .inf_init => some (.runtime, 0)
  | .slice_new => some (.slice, 0)
  | .options_new => some (.options, 0)
  | .privkey_new key => some (.key, key)
  | .crt_new crt => some (.certificate, crt)
  | .credentials_new c => some (.credentials, c)
  | .gsasl_init g => some (.gsasl, g)
  | _ => none

/-- The resource a call releases, by kind and handle. -/
def Event.releases : Event → Option (Kind × Nat)
  | .inf_deinit => some (.runtime, 0)
  | .slice_free => some (.slice, 0)
  | .options_free => some (.options, 0)
  | .privkey_deinit key => some (.key, key)
  | .crt_deinit crt => some (.certificate, crt)
  | .credentials_unref c => some (.credentials, c)
  | .gsasl_done g => some (.gsasl, g)
  | _ => none

/-- The handles of kind `k` acquired in a trace, in order, each as often as
it is acquired. -/
def acquired (k : Kind) (t : List Event) : List Nat :=
  t.filterMap (fun e => match e.acquires with
    | some (k1, x) => if k1 = k then some x else none
    | none => none)

/-- The handles of kind `k` released in a trace, in order, each as often as
it is released. -/
def released (k : Kind) (t : List Event) : List Nat :=
  t.filterMap (fun e => match e.releases with
    | some (k1, x) => if k1 = k then some x else none
    | none => none)

/-- The handles of kind `k` a startup under construction holds. -/
def held (k : Kind) (startup : InfinotedStartup) : List Nat :=
  match k with
  | .runtime => [0]
  | .slice => [0]
  | .options => if startup.options.isSome then [0] else []
  | .key => startup.private_key.toList
  | .certificate => startup.certificates.getD []
  | .credentials => startup.credentials.toList
  | .gsasl => startup.gsasl.toList

/-- The startup as lines 297-303 initialise it. -/
def blank_startup : InfinotedStartup :=
  { options := none, private_key := none, certificates := none, n_certificates := 0,
    credentials := none, gsasl := none }

/-- The startup `startup` accounts for the trace `t`: its certificate count
is the length of its certificate array, and every handle has been acquired
as often as it has been released or is held by the startup. -/
def Keeps (startup : InfinotedStartup) (t : List Event) : Prop :=
  (∀ certificates, startup.certificates = some certificates →
    startup.n_certificates = certificates.length) ∧
  ∀ k x, (acquired k t).count x = (released k t).count x + (held k startup).count x

end Startup

/-! ## Basic facts about the blocks -/

@[simp] theorem emit_run (w : World) (e : Event) : (w.emit e).run = w.run := rfl

@[simp] theorem emit_next (w : World) (e : Event) : (w.emit e).next = w.next := rfl

@[simp] theorem emit_trace (w : World) (e : Event) : (w.emit e).trace = w.trace ++ [e] := rfl

@[simp] theorem alloc_run (w : World) : w.alloc.run = w.run := rfl

@[simp] theorem alloc_next (w : World) : w.alloc.next = w.next + 1 := rfl

@[simp] theorem alloc_trace (w : World) : w.alloc.trace = w.trace := rfl

theorem Emits.refl (S : List EventClass) (t : List Event) : Emits S t t :=
  ⟨[], by simp, by simp⟩

theorem Emits.trans {S : List EventClass} {t1 t2 t3 : List Event}
    (h1 : Emits S t1 t2) (h2 : Emits S t2 t3) : Emits S t1 t3 := by
  obtain ⟨e1, rfl, he1⟩ := h1
  obtain ⟨e2, rfl, he2⟩ := h2
  refine ⟨e1 ++ e2, by simp, ?_⟩
  intro e he
  rcases List.mem_append.mp he with h | h
  · exact he1 e h
  · exact he2 e h

theorem Emits.mono {S T : List EventClass} {t t' : List Event}
    (h : Emits S t t') (hST : ∀ c ∈ S, c ∈ T) : Emits T t t' := by
  obtain ⟨evs, rfl, he⟩ := h
  exact ⟨evs, rfl, fun e hm => hST _ (he e hm)⟩

theorem emits_append (S : List EventClass) (t evs : List Event)
    (h : ∀ e ∈ evs, e.cls ∈ S) : Emits S t (t ++ evs) :=
  ⟨evs, rfl, h⟩

/-! ### The fallible part: frame and emitted calls -/

@[simp] theorem startup_created_run (s : InfinotedStartup) (w : World) :
    (startup_created s w).run = w.run := by
  unfold startup_created
  split <;> simp

@[simp] theorem startup_created_next (s : InfinotedStartup) (w : World) :
    (startup_created s w).next = w.next + 1 := by
  unfold startup_created
  split <;> simp

theorem startup_created_emits (s : InfinotedStartup) (w : World) :
    Emits [.other] w.trace (startup_created s w).trace := by
  unfold startup_created
  split <;> simp only [emit_trace, alloc_trace, List.append_assoc] <;>
    exact emits_append _ _ _ (by simp [Event.cls])

@[simp] theorem ensure_dh_params_run (env : Collaborators) (s : InfinotedStartup) (w : World) :
    (ensure_dh_params env s w).run = w.run := by
  unfold ensure_dh_params
  split <;> simp

@[simp] theorem ensure_dh_params_next (env : Collaborators) (s : InfinotedStartup)
    (w : World) : (ensure_dh_params env s w).next = w.next := by
  unfold ensure_dh_params
  split <;> simp

theorem ensure_dh_params_emits (env : Collaborators) (s : InfinotedStartup) (w : World) :
    Emits [.other] w.trace (ensure_dh_params env s w).trace := by
  unfold ensure_dh_params
  split
  · exact emits_append _ _ _ (by simp [Event.cls])
  · exact Emits.refl _ _

@[simp] theorem get_tcp_servers_run (w : World) : (get_tcp_servers w).run = w.run := by
  unfold get_tcp_servers
  cases h6 : w.run.xmpp6 <;> cases h4 : w.run.xmpp4 <;> simp [h4]

@[simp] theorem get_tcp_servers_next (w : World) : (get_tcp_servers w).next = w.next := by
  unfold get_tcp_servers
  cases h6 : w.run.xmpp6 <;> cases h4 : w.run.xmpp4 <;> simp [h4]

theorem get_tcp_servers_emits (w : World) :
    Emits [.other] w.trace (get_tcp_servers w).trace := by
  unfold get_tcp_servers
  cases h6 : w.run.xmpp6 <;> cases h4 : w.run.xmpp4 <;>
    simp only [h4, emit_run, emit_trace, List.append_assoc] <;>
    first
      | exact Emits.refl _ _
      | exact emits_append _ _ _ (by simp [Event.cls])

@[simp] theorem unref_tcp_servers_run (w : World) : (unref_tcp_servers w).run = w.run := by
  unfold unref_tcp_servers
  cases h6 : w.run.xmpp6 <;> cases h4 : w.run.xmpp4 <;> simp [h6]

@[simp] theorem unref_tcp_servers_next (w : World) : (unref_tcp_servers w).next = w.next := by
  unfold unref_tcp_servers
  cases h6 : w.run.xmpp6 <;> cases h4 : w.run.xmpp4 <;> simp [h6]

theorem unref_tcp_servers_emits (w : World) :
    Emits [.other] w.trace (unref_tcp_servers w).trace := by
  unfold unref_tcp_servers
  cases h6 : w.run.xmpp6 <;> cases h4 : w.run.xmpp4 <;>
    simp only [h6, emit_run, emit_trace, List.append_assoc] <;>
    first
      | exact Emits.refl _ _
      | exact emits_append _ _ _ (by simp [Event.cls])

theorem bind_new_servers_failed {env : Collaborators} {port : Nat} {w w1 : World}
    {e : GError} (h : bind_new_servers env port w = .failed e w1) :
    w1.run = w.run ∧ env.bind6.isSome ∧ env.bind4 = some e ∧
      Emits [.other, .listener] w.trace w1.trace := by
  unfold bind_new_servers at h
  cases h6 : env.bind6 <;> cases h4 : env.bind4 <;> simp [h6, h4] at h
  obtain ⟨rfl, rfl⟩ := h
  refine ⟨by simp, by simp, by simp, ?_⟩
  simp only [emit_trace, alloc_trace, List.append_assoc]
  exact emits_append _ _ _ (by simp [Event.cls])

theorem bind_new_servers_bound {env : Collaborators} {port : Nat} {w w1 : World}
    {tcp6 tcp4 : Option InfdTcpServer} (h : bind_new_servers env port w = .bound tcp6 tcp4 w1) :
    w1.run = w.run ∧ w1.next = w.next + 2 ∧
      tcp6 = (if env.bind6.isNone then
        some { id := w.next, ipv6 := true, local_port := port } else none) ∧
      tcp4 = (if env.bind4.isNone then
        some { id := w.next + 1, ipv6 := false, local_port := port } else none) ∧
      (tcp4.isSome || tcp6.isSome) = true ∧
      Emits [.other, .listener] w.trace w1.trace := by
  unfold bind_new_servers at h
  cases h6 : env.bind6 <;> cases h4 : env.bind4 <;> simp [h6, h4] at h
  all_goals
    obtain ⟨rfl, rfl, rfl⟩ := h
    refine ⟨by simp, by simp, by simp, by simp, by simp, ?_⟩
    simp only [emit_trace, alloc_trace, List.append_assoc]
    exact emits_append _ _ _ (by simp [Event.cls])

@[simp] theorem open_new_servers_run (env : Collaborators) (tcp6 tcp4 : Option InfdTcpServer)
    (w : World) : (open_new_servers env tcp6 tcp4 w).w.run = w.run := by
  unfold open_new_servers
  cases tcp6 <;> cases tcp4 <;> cases env.open6 <;> cases env.open4 <;> simp

@[simp] theorem open_new_servers_next (env : Collaborators) (tcp6 tcp4 : Option InfdTcpServer)
    (w : World) : (open_new_servers env tcp6 tcp4 w).w.next = w.next := by
  unfold open_new_servers
  cases tcp6 <;> cases tcp4 <;> cases env.open6 <;> cases env.open4 <;> simp

theorem open_new_servers_tcp6 (env : Collaborators) (tcp6 tcp4 : Option InfdTcpServer)
    (w : World) :
    (open_new_servers env tcp6 tcp4 w).tcp6 = if env.open6.isNone then tcp6 else none := by
  unfold open_new_servers
  cases tcp6 <;> cases tcp4 <;> cases env.open6 <;> cases env.open4 <;> simp

theorem open_new_servers_tcp4 (env : Collaborators) (tcp6 tcp4 : Option InfdTcpServer)
    (w : World) :
    (open_new_servers env tcp6 tcp4 w).tcp4 = if env.open4.isNone then tcp4 else none := by
  unfold open_new_servers
  cases tcp6 <;> cases tcp4 <;> cases env.open6 <;> cases env.open4 <;> simp

theorem open_new_servers_emits (env : Collaborators) (tcp6 tcp4 : Option InfdTcpServer)
    (w : World) :
    Emits [.other, .listener] w.trace (open_new_servers env tcp6 tcp4 w).w.trace := by
  unfold open_new_servers
  cases tcp6 <;> cases tcp4 <;> cases env.open6 <;> cases env.open4 <;>
    simp only [emit_trace, List.append_assoc] <;>
    first
      | exact Emits.refl _ _
      | exact emits_append _ _ _ (by simp [Event.cls])

@[simp] theorem read_storage_run (w : World) : (read_storage w).run = w.run := rfl

@[simp] theorem read_storage_next (w : World) : (read_storage w).next = w.next := rfl

theorem read_storage_emits (w : World) : Emits [.other] w.trace (read_storage w).trace := by
  unfold read_storage
  simp only [emit_trace, List.append_assoc]
  exact emits_append _ _ _ (by simp [Event.cls])

@[simp] theorem create_plugin_manager_run (env : Collaborators) (s : InfinotedStartup)
    (w : World) : (create_plugin_manager env s w).run = w.run := by
  unfold create_plugin_manager
  split <;> simp

theorem create_plugin_manager_next (env : Collaborators) (s : InfinotedStartup)
    (w : World) : (create_plugin_manager env s w).next =
      if env.plugin_manager_new.isNone then w.next + 1 else w.next := by
  unfold create_plugin_manager
  cases env.plugin_manager_new <;> simp

theorem create_plugin_manager_emits (env : Collaborators) (s : InfinotedStartup)
    (w : World) : Emits [.other, .plugin] w.trace (create_plugin_manager env s w).trace := by
  unfold create_plugin_manager
  split <;> simp only [emit_trace, alloc_trace, List.append_assoc] <;>
    exact emits_append _ _ _ (by simp [Event.cls])

@[simp] theorem create_storage_run (s : InfinotedStartup) (w : World) :
    (create_storage s w).run = w.run := by
  unfold create_storage
  split <;> simp

theorem create_storage_next (s : InfinotedStartup) (w : World) :
    w.next ≤ (create_storage s w).next := by
  unfold create_storage
  split <;> simp

theorem create_storage_emits (s : InfinotedStartup) (w : World) :
    Emits [.storage] w.trace (create_storage s w).trace := by
  unfold create_storage
  split
  · exact emits_append _ _ _ (by simp [Event.cls])
  · exact Emits.refl _ _

@[simp] theorem release_candidates_run (pm : Nat) (fs : Option InfdStorage) (w : World) :
    (release_candidates pm fs w).run = w.run := by
  unfold release_candidates
  split <;> simp

theorem release_candidates_emits (pm : Nat) (fs : Option InfdStorage) (w : World) :
    Emits [.other] w.trace (release_candidates pm fs w).trace := by
  unfold release_candidates
  split <;> simp only [emit_trace, List.append_assoc] <;>
    exact emits_append _ _ _ (by simp [Event.cls])

@[simp] theorem fail_with_ret (error : Option GError) (startup : InfinotedStartup) (w : World) :
    (fail_with error startup w).ret = false := rfl

@[simp] theorem fail_with_error (error : Option GError) (startup : InfinotedStartup)
    (w : World) : (fail_with error startup w).error = error := rfl

@[simp] theorem fail_with_world (error : Option GError) (startup : InfinotedStartup)
    (w : World) :
    (fail_with error startup w).world = w.emit (.startup_free startup.id) := rfl

@[simp] theorem drop_config_file_id (s : InfinotedStartup) : (drop_config_file s).id = s.id :=
  rfl

theorem Emits.step {S T : List EventClass} {t1 t2 t3 : List Event}
    (h1 : Emits T t1 t2) (h2 : Emits S t2 t3) (hST : ∀ c ∈ S, c ∈ T) : Emits T t1 t3 :=
  h1.trans (h2.mono hST)

theorem prepare_after_bind_returned {env : Collaborators} {s : InfinotedStartup}
    {tcp6 tcp4 : Option InfdTcpServer} {w : World} {r : ReloadResult}
    (h : prepare_after_bind env s tcp6 tcp4 w = .returned r) :
    r.ret = false ∧ r.world.run = w.run ∧
      ∃ t, r.world.trace = t ++ [.startup_free s.id] ∧
        Emits [.other, .listener, .plugin, .storage] w.trace t := by
  unfold prepare_after_bind at h
  dsimp only at h
  have e1 := ((Emits.refl [.other, .listener, .plugin, .storage] w.trace).step
    (read_storage_emits w) (by decide)).step
    (create_plugin_manager_emits env s (read_storage w)) (by decide)
  cases hpm : env.plugin_manager_new <;> simp only [hpm] at h <;> split_ifs at h <;>
    cases h <;> refine ⟨by simp, by simp, ?_⟩
  · refine ⟨_, rfl, ?_⟩
    exact ((e1.step (create_storage_emits _ _) (by decide)).step
      (open_new_servers_emits _ _ _ _) (by decide)).step
      (release_candidates_emits _ _ _) (by decide)
  · exact ⟨_, rfl, e1⟩

theorem prepare_after_bind_ready {env : Collaborators} {s : InfinotedStartup}
    {tcp6 tcp4 : Option InfdTcpServer} {w w1 : World} {c : Candidates}
    (h : prepare_after_bind env s tcp6 tcp4 w = .ready c w1) :
    c.startup = drop_config_file s ∧ w1.run = w.run ∧ w.next < w1.next ∧
      c.plugin_manager = w.next ∧
      w.run.directory.storage.is_filesystem = true ∧ env.plugin_manager_new = none ∧
      c.tcp6 = (if env.open6.isNone then tcp6 else none) ∧
      c.tcp4 = (if env.open4.isNone then tcp4 else none) ∧
      ((tcp4.isSome || tcp6.isSome) = true → (c.tcp4.isSome || c.tcp6.isSome) = true) ∧
      Emits [.other, .listener, .plugin, .storage] w.trace w1.trace ∧
      (tcp6 = none → tcp4 = none → Emits [.other, .plugin, .storage] w.trace w1.trace) := by
  unfold prepare_after_bind at h
  dsimp only at h
  have e1 := ((Emits.refl [.other, .plugin, .storage] w.trace).step
    (read_storage_emits w) (by decide)).step
    (create_plugin_manager_emits env s (read_storage w)) (by decide)
  have e2 := e1.step (create_storage_emits (drop_config_file s)
    (create_plugin_manager env s (read_storage w))) (by decide)
  have hn := create_storage_next (drop_config_file s)
    (create_plugin_manager env s (read_storage w))
  cases hpm : env.plugin_manager_new with
  | some e =>
    simp only [hpm] at h
    split_ifs at h
  | none =>
  simp only [hpm] at h
  split_ifs at h with hfs ht ho <;> cases h
  · have hn2 := create_plugin_manager_next env s (read_storage w)
    simp [hpm] at hn2
    refine ⟨rfl, by simp, by simp only [open_new_servers_next]; omega, rfl, by simpa using hfs,
      rfl, open_new_servers_tcp6 _ _ _ _, open_new_servers_tcp4 _ _ _ _, ?_,
      (e2.mono (by decide)).step (open_new_servers_emits _ _ _ _) (by decide), ?_⟩
    · intro _
      revert ho
      generalize open_new_servers env tcp6 tcp4 _ = o
      cases o.tcp4 <;> cases o.tcp6 <;> simp
    · rintro rfl rfl
      simp at ht
  · have hn2 := create_plugin_manager_next env s (read_storage w)
    simp [hpm] at hn2
    have ht6 : tcp6 = none := by
      cases tcp6 <;> simp_all
    have ht4 : tcp4 = none := by
      cases tcp4 <;> simp_all
    subst ht6 ht4
    refine ⟨rfl, by simp, by omega, rfl, by simpa using hfs, rfl, by simp, by simp, ?_,
      e2.mono (by decide), fun _ _ => e2⟩
    intro hh
    simp at hh

theorem prepare_servers_returned {env : Collaborators} {s : InfinotedStartup}
    {w : World} {r : ReloadResult} (h : prepare_servers env s w = .returned r) :
    r.ret = false ∧ r.world.run = w.run ∧
      ∃ t, r.world.trace = t ++ [.startup_free s.id] ∧
        Emits [.other, .listener, .plugin, .storage] w.trace t := by
  unfold prepare_servers at h
  dsimp only at h
  have e1 := ((Emits.refl [.other, .listener, .plugin, .storage] w.trace).step
    (get_tcp_servers_emits w) (by decide)).step
    (unref_tcp_servers_emits (get_tcp_servers w)) (by decide)
  split at h
  · cases h
  · split_ifs at h
    · split at h
      · rename_i e w2 hb
        cases h
        obtain ⟨hr, -, -, he⟩ := bind_new_servers_failed hb
        exact ⟨rfl, by simp [hr], _, rfl, e1.step he (by decide)⟩
      · rename_i t6 t4 w2 hb
        obtain ⟨hr, -, -, -, -, he⟩ := bind_new_servers_bound hb
        obtain ⟨h1, h2, t, h3, h4⟩ := prepare_after_bind_returned h
        exact ⟨h1, by simp [h2, hr], t, h3, (e1.step he (by decide)).trans h4⟩
    · obtain ⟨h1, h2, t, h3, h4⟩ := prepare_after_bind_returned h
      exact ⟨h1, by simp [h2], t, h3, e1.trans h4⟩

theorem prepare_servers_ready {env : Collaborators} {s : InfinotedStartup}
    {w w1 : World} {c : Candidates} (h : prepare_servers env s w = .ready c w1) :
    ∃ port, current_port w.run = some port ∧
      c.startup = drop_config_file s ∧ w1.run = w.run ∧ w.next < w1.next ∧
      w.run.directory.storage.is_filesystem = true ∧ env.plugin_manager_new = none ∧
      Emits [.other, .listener, .plugin, .storage] w.trace w1.trace ∧
      (s.options.port = port →
        c.tcp6 = none ∧ c.tcp4 = none ∧ Emits [.other, .plugin, .storage] w.trace w1.trace) ∧
      (s.options.port ≠ port →
        c.tcp6 = (if env.bind6.isNone && env.open6.isNone then
          some { id := w.next, ipv6 := true, local_port := s.options.port } else none) ∧
        c.tcp4 = (if env.bind4.isNone && env.open4.isNone then
          some { id := w.next + 1, ipv6 := false, local_port := s.options.port } else none) ∧
        (c.tcp4.isSome || c.tcp6.isSome) = true) := by
  unfold prepare_servers at h
  dsimp only at h
  have e1 := ((Emits.refl [.other, .plugin, .storage] w.trace).step
    (get_tcp_servers_emits w) (by decide)).step
    (unref_tcp_servers_emits (get_tcp_servers w)) (by decide)
  split at h
  · cases h
  · rename_i port hp
    simp only [get_tcp_servers_run] at hp
    refine ⟨port, hp, ?_⟩
    split_ifs at h with hport
    · have hne : s.options.port ≠ port := by simpa using hport
      split at h
      · cases h
      · rename_i t6 t4 w2 hb
        obtain ⟨hr, hn, h6, h4, hsome, he⟩ := bind_new_servers_bound hb
        obtain ⟨a1, a2, a3, -, a5, a6, a7, a8, a9, a10, -⟩ := prepare_after_bind_ready h
        simp only [unref_tcp_servers_run, get_tcp_servers_run, unref_tcp_servers_next,
          get_tcp_servers_next] at hr hn h6 h4
        refine ⟨a1, by rw [a2, hr], by omega, by rw [← hr, ← a2]; rw [a2]; exact a5, a6,
          ((e1.mono (by decide)).step he (by decide)).trans a10,
          fun hh => absurd hh hne, fun _ => ⟨?_, ?_, a9 hsome⟩⟩
        · rw [a7, h6]
          cases env.bind6 <;> cases env.open6 <;> simp
        · rw [a8, h4]
          cases env.bind4 <;> cases env.open4 <;> simp
    · have heq : s.options.port = port := by simpa using hport
      obtain ⟨a1, a2, a3, -, a5, a6, a7, a8, -, a10, a11⟩ := prepare_after_bind_ready h
      simp only [unref_tcp_servers_run, get_tcp_servers_run, unref_tcp_servers_next,
        get_tcp_servers_next] at a2 a3 a5
      refine ⟨a1, a2, a3, a5, a6, (e1.mono (by decide)).trans a10,
        fun _ => ⟨by simp [a7], by simp [a8], e1.trans (a11 rfl rfl)⟩,
        fun hh => absurd heq hh⟩

theorem prepare_returned {env : Collaborators} {w : World} {r : ReloadResult}
    (h : prepare env w = .returned r) :
    r.ret = false ∧ r.world.run = w.run ∧
      (∀ contents, env.startup_new = .ok contents →
        ∃ t, r.world.trace = t ++ [.startup_free w.next] ∧
          Emits [.other, .listener, .plugin, .storage] w.trace t) := by
  unfold prepare at h
  dsimp only at h
  split at h
  · rename_i e he
    cases h
    refine ⟨rfl, rfl, ?_⟩
    intro contents hc
    rw [he] at hc
    cases hc
  · rename_i contents hc
    have e1 := ((Emits.refl [.other, .listener, .plugin, .storage] w.trace).step
      (startup_created_emits (startup_of w.next contents) w) (by decide)).step
      (ensure_dh_params_emits env (startup_of w.next contents)
        (startup_created (startup_of w.next contents) w)) (by decide)
    split at h
    · cases h
      refine ⟨rfl, by simp, ?_⟩
      intro c2 _
      exact ⟨_, rfl, e1⟩
    · obtain ⟨h1, h2, t, h3, h4⟩ := prepare_servers_returned h
      refine ⟨h1, by simp [h2], ?_⟩
      intro c2 _
      exact ⟨t, h3, e1.trans h4⟩

theorem prepare_ready {env : Collaborators} {w w1 : World} {c : Candidates}
    (h : prepare env w = .ready c w1) :
    ∃ contents port, env.startup_new = .ok contents ∧ current_port w.run = some port ∧
      dh_params_error env (startup_of w.next contents) = none ∧
      c.startup = drop_config_file (startup_of w.next contents) ∧
      w1.run = w.run ∧ w.next + 1 < w1.next ∧
      w.run.directory.storage.is_filesystem = true ∧ env.plugin_manager_new = none ∧
      Emits [.other, .listener, .plugin, .storage] w.trace w1.trace ∧
      (contents.options.port = port →
        c.tcp6 = none ∧ c.tcp4 = none ∧ Emits [.other, .plugin, .storage] w.trace w1.trace) ∧
      (contents.options.port ≠ port →
        c.tcp6 = (if env.bind6.isNone && env.open6.isNone then
          some { id := w.next + 1, ipv6 := true, local_port := contents.options.port }
          else none) ∧
        c.tcp4 = (if env.bind4.isNone && env.open4.isNone then
          some { id := w.next + 2, ipv6 := false, local_port := contents.options.port }
          else none) ∧
        (c.tcp4.isSome || c.tcp6.isSome) = true) := by
  unfold prepare at h
  dsimp only at h
  split at h
  · cases h
  · rename_i contents hc
    have e1 := ((Emits.refl [.other, .plugin, .storage] w.trace).step
      (startup_created_emits (startup_of w.next contents) w) (by decide)).step
      (ensure_dh_params_emits env (startup_of w.next contents)
        (startup_created (startup_of w.next contents) w)) (by decide)
    split at h
    · cases h
    · rename_i hdh
      obtain ⟨port, b1, b2, b3, b4, b5, b6, b7, b8, b9⟩ := prepare_servers_ready h
      simp only [ensure_dh_params_run, startup_created_run, ensure_dh_params_next,
        startup_created_next] at b1 b3 b4 b5 b8 b9
      refine ⟨contents, port, hc, b1, hdh, b2, b3, b4, b5, b6, (e1.mono (by decide)).trans b7,
        ?_, ?_⟩
      · intro hp
        obtain ⟨c1, c2, c3⟩ := b8 hp
        exact ⟨c1, c2, e1.trans c3⟩
      · intro hp
        exact b9 hp

/-! ### The commit: frame and emitted calls -/

/-- The properties "credentials" and "security-policy" of a server after the
`g_object_set` of lines 343-348. -/
theorem set_credentials_and_policy_fst (s : InfinotedStartup) (x : InfdXmppServer)
    (w : World) :
    (set_credentials_and_policy s x w).1 =
      { x with credentials := s.credentials, security_policy := s.options.security_policy } :=
  rfl

theorem set_credentials_and_policy_snd (s : InfinotedStartup) (x : InfdXmppServer)
    (w : World) :
    (set_credentials_and_policy s x w).2 =
      (w.emit (.xmpp_server_set_credentials x.id s.credentials)).emit
        (.xmpp_server_set_security_policy x.id s.options.security_policy) :=
  rfl

@[simp] theorem update_servers_dsync (cfg : BuildConfig) (s : InfinotedStartup)
    (tcp6 tcp4 : Option InfdTcpServer) (w : World) :
    (update_servers cfg s tcp6 tcp4 w).run.dsync = w.run.dsync := by
  unfold update_servers close_old_server new_xmpp_server register_server
    set_credentials_and_policy
  cases tcp6 <;> cases tcp4 <;> cases h6 : w.run.xmpp6 <;> cases h4 : w.run.xmpp4 <;>
    cases cfg.have_avahi <;> simp [h6, h4]

@[simp] theorem update_servers_directory (cfg : BuildConfig) (s : InfinotedStartup)
    (tcp6 tcp4 : Option InfdTcpServer) (w : World) :
    (update_servers cfg s tcp6 tcp4 w).run.directory = w.run.directory := by
  unfold update_servers close_old_server new_xmpp_server register_server
    set_credentials_and_policy
  cases tcp6 <;> cases tcp4 <;> cases h6 : w.run.xmpp6 <;> cases h4 : w.run.xmpp4 <;>
    cases cfg.have_avahi <;> simp [h6, h4]

@[simp] theorem update_servers_plugin_manager (cfg : BuildConfig) (s : InfinotedStartup)
    (tcp6 tcp4 : Option InfdTcpServer) (w : World) :
    (update_servers cfg s tcp6 tcp4 w).run.plugin_manager = w.run.plugin_manager := by
  unfold update_servers close_old_server new_xmpp_server register_server
    set_credentials_and_policy
  cases tcp6 <;> cases tcp4 <;> cases h6 : w.run.xmpp6 <;> cases h4 : w.run.xmpp4 <;>
    cases cfg.have_avahi <;> simp [h6, h4]

@[simp] theorem update_servers_startup (cfg : BuildConfig) (s : InfinotedStartup)
    (tcp6 tcp4 : Option InfdTcpServer) (w : World) :
    (update_servers cfg s tcp6 tcp4 w).run.startup = w.run.startup := by
  unfold update_servers close_old_server new_xmpp_server register_server
    set_credentials_and_policy
  cases tcp6 <;> cases tcp4 <;> cases h6 : w.run.xmpp6 <;> cases h4 : w.run.xmpp4 <;>
    cases cfg.have_avahi <;> simp [h6, h4]

theorem update_servers_emits (cfg : BuildConfig) (s : InfinotedStartup)
    (tcp6 tcp4 : Option InfdTcpServer) (w : World) :
    Emits [.other, .listener] w.trace (update_servers cfg s tcp6 tcp4 w).trace := by
  unfold update_servers close_old_server new_xmpp_server register_server
    set_credentials_and_policy
  cases tcp6 <;> cases tcp4 <;> cases h6 : w.run.xmpp6 <;> cases h4 : w.run.xmpp4 <;>
    cases cfg.have_avahi <;>
    simp [h6, h4] <;>
    first
      | exact Emits.refl _ _
      | exact emits_append _ _ _ (by simp [Event.cls])

theorem update_servers_in_place (cfg : BuildConfig) (s : InfinotedStartup) (w : World) :
    (update_servers cfg s none none w).run.xmpp6 =
        w.run.xmpp6.map (fun x =>
          { x with credentials := s.credentials,
                   security_policy := s.options.security_policy }) ∧
      (update_servers cfg s none none w).run.xmpp4 =
        w.run.xmpp4.map (fun x =>
          { x with credentials := s.credentials,
                   security_policy := s.options.security_policy }) ∧
      (update_servers cfg s none none w).run.pool = w.run.pool ∧
      Emits [.other] w.trace (update_servers cfg s none none w).trace ∧
      (∀ x, w.run.xmpp6 = some x ∨ w.run.xmpp4 = some x →
        ∃ pre post, (update_servers cfg s none none w).trace =
          w.trace ++ pre ++
            [.xmpp_server_set_credentials x.id s.credentials,
             .xmpp_server_set_security_policy x.id s.options.security_policy] ++ post) := by
  unfold update_servers set_credentials_and_policy
  cases h6 : w.run.xmpp6 <;> cases h4 : w.run.xmpp4 <;> simp [h6, h4]
  · exact Emits.refl _ _
  · rename_i x4
    exact ⟨emits_append _ _ _ (by simp [Event.cls]), [], [], by simp⟩
  · rename_i x6
    exact ⟨emits_append _ _ _ (by simp [Event.cls]), [], [], by simp⟩
  · rename_i x6 x4
    refine ⟨emits_append _ _ _ (by simp [Event.cls]), ?_⟩
    rintro x (rfl | rfl)
    · exact ⟨[], [.xmpp_server_set_credentials x4.id s.credentials,
        .xmpp_server_set_security_policy x4.id s.options.security_policy], by simp⟩
    · exact ⟨[.xmpp_server_set_credentials x6.id s.credentials,
        .xmpp_server_set_security_policy x6.id s.options.security_policy], [], by simp⟩

theorem update_servers_swapped (cfg : BuildConfig) (s : InfinotedStartup)
    (tcp6 tcp4 : Option InfdTcpServer) (w : World)
    (h : (tcp4.isSome || tcp6.isSome) = true) :
    (update_servers cfg s tcp6 tcp4 w).run.xmpp6 =
        tcp6.map (fun t =>
          { id := w.next, tcp_server := t, security_policy := s.options.security_policy,
            credentials := s.credentials, sasl_context := none, sasl_mechanisms := none }) ∧
      (update_servers cfg s tcp6 tcp4 w).run.xmpp4 =
        tcp4.map (fun t =>
          { id := w.next + (if tcp6.isSome then 1 else 0), tcp_server := t,
            security_policy := s.options.security_policy,
            credentials := s.credentials, sasl_context := none, sasl_mechanisms := none }) ∧
      (∀ y ∈ (update_servers cfg s tcp6 tcp4 w).run.pool,
        w.next ≤ y ∨ (y ∈ w.run.pool ∧ (∀ x, w.run.xmpp6 = some x → y ≠ x.id) ∧
          (∀ x, w.run.xmpp4 = some x → y ≠ x.id))) ∧
      (∀ x, (update_servers cfg s tcp6 tcp4 w).run.xmpp6 = some x ∨
          (update_servers cfg s tcp6 tcp4 w).run.xmpp4 = some x →
        x.id ∈ (update_servers cfg s tcp6 tcp4 w).run.pool) ∧
      (∀ x, w.run.xmpp6 = some x ∨ w.run.xmpp4 = some x →
        ∃ evs, (update_servers cfg s tcp6 tcp4 w).trace = w.trace ++ evs ∧
          .pool_remove_server x.id ∈ evs ∧ .xml_server_close x.id ∈ evs) := by
  unfold update_servers close_old_server new_xmpp_server register_server
    infd_server_pool_remove_server infd_server_pool_add_server
  cases tcp6 <;> cases tcp4 <;> simp at h <;>
    cases h6 : w.run.xmpp6 <;> cases h4 : w.run.xmpp4 <;>
    cases cfg.have_avahi <;> simp [h6, h4]
  all_goals aesop

@[simp] theorem update_storage_xmpp4 (fs : Option InfdStorage) (w : World) :
    (update_storage fs w).run.xmpp4 = w.run.xmpp4 := by
  unfold update_storage
  split <;> simp

@[simp] theorem update_storage_xmpp6 (fs : Option InfdStorage) (w : World) :
    (update_storage fs w).run.xmpp6 = w.run.xmpp6 := by
  unfold update_storage
  split <;> simp

@[simp] theorem update_storage_pool (fs : Option InfdStorage) (w : World) :
    (update_storage fs w).run.pool = w.run.pool := by
  unfold update_storage
  split <;> simp

@[simp] theorem update_storage_dsync (fs : Option InfdStorage) (w : World) :
    (update_storage fs w).run.dsync = w.run.dsync := by
  unfold update_storage
  split <;> simp

@[simp] theorem update_storage_directory_connections (fs : Option InfdStorage) (w : World) :
    (update_storage fs w).run.directory.connections = w.run.directory.connections := by
  unfold update_storage
  split <;> simp

@[simp] theorem update_storage_directory_id (fs : Option InfdStorage) (w : World) :
    (update_storage fs w).run.directory.id = w.run.directory.id := by
  unfold update_storage
  split <;> simp

@[simp] theorem update_storage_startup (fs : Option InfdStorage) (w : World) :
    (update_storage fs w).run.startup = w.run.startup := by
  unfold update_storage
  split <;> simp

@[simp] theorem update_storage_plugin_manager (fs : Option InfdStorage) (w : World) :
    (update_storage fs w).run.plugin_manager = w.run.plugin_manager := by
  unfold update_storage
  split <;> simp

@[simp] theorem update_dsync_xmpp4 (s : InfinotedStartup) (w : World) :
    (update_dsync s w).run.xmpp4 = w.run.xmpp4 := by
  unfold update_dsync
  (repeat' split) <;> simp

@[simp] theorem update_dsync_xmpp6 (s : InfinotedStartup) (w : World) :
    (update_dsync s w).run.xmpp6 = w.run.xmpp6 := by
  unfold update_dsync
  (repeat' split) <;> simp

@[simp] theorem update_dsync_pool (s : InfinotedStartup) (w : World) :
    (update_dsync s w).run.pool = w.run.pool := by
  unfold update_dsync
  (repeat' split) <;> simp

@[simp] theorem update_dsync_directory (s : InfinotedStartup) (w : World) :
    (update_dsync s w).run.directory = w.run.directory := by
  unfold update_dsync
  (repeat' split) <;> simp

@[simp] theorem update_dsync_startup (s : InfinotedStartup) (w : World) :
    (update_dsync s w).run.startup = w.run.startup := by
  unfold update_dsync
  (repeat' split) <;> simp

@[simp] theorem update_protector_xmpp4 (s : InfinotedStartup) (w : World) :
    (update_protector s w).run.xmpp4 = w.run.xmpp4 := by
  unfold update_protector
  (repeat' split) <;> simp

@[simp] theorem update_protector_xmpp6 (s : InfinotedStartup) (w : World) :
    (update_protector s w).run.xmpp6 = w.run.xmpp6 := by
  unfold update_protector
  (repeat' split) <;> simp

@[simp] theorem update_protector_pool (s : InfinotedStartup) (w : World) :
    (update_protector s w).run.pool = w.run.pool := by
  unfold update_protector
  (repeat' split) <;> simp

@[simp] theorem update_protector_dsync (s : InfinotedStartup) (w : World) :
    (update_protector s w).run.dsync = w.run.dsync := by
  unfold update_protector
  (repeat' split) <;> simp

@[simp] theorem update_protector_directory (s : InfinotedStartup) (w : World) :
    (update_protector s w).run.directory = w.run.directory := by
  unfold update_protector
  (repeat' split) <;> simp

@[simp] theorem update_protector_startup (s : InfinotedStartup) (w : World) :
    (update_protector s w).run.startup = w.run.startup := by
  unfold update_protector
  (repeat' split) <;> simp

@[simp] theorem install_startup_xmpp4 (s : InfinotedStartup) (w : World) :
    (install_startup s w).run.xmpp4 = w.run.xmpp4 := rfl

@[simp] theorem install_startup_xmpp6 (s : InfinotedStartup) (w : World) :
    (install_startup s w).run.xmpp6 = w.run.xmpp6 := rfl

@[simp] theorem install_startup_pool (s : InfinotedStartup) (w : World) :
    (install_startup s w).run.pool = w.run.pool := rfl

@[simp] theorem install_startup_dsync (s : InfinotedStartup) (w : World) :
    (install_startup s w).run.dsync = w.run.dsync := rfl

@[simp] theorem install_startup_directory (s : InfinotedStartup) (w : World) :
    (install_startup s w).run.directory = w.run.directory := rfl

theorem update_storage_emits (fs : Option InfdStorage) (w : World) :
    Emits [.other] w.trace (update_storage fs w).trace := by
  unfold update_storage
  split
  · simp only [emit_trace, List.append_assoc]
    exact emits_append _ _ _ (by simp [Event.cls])
  · exact Emits.refl _ _

theorem update_plugin_manager_some {pm : Nat} {w w1 : World}
    (h : update_plugin_manager pm w = some w1) :
    w1.run.xmpp4 = w.run.xmpp4 ∧ w1.run.xmpp6 = w.run.xmpp6 ∧ w1.run.pool = w.run.pool ∧
      w1.run.dsync = w.run.dsync ∧ w1.run.directory = w.run.directory ∧
      w1.run.startup = w.run.startup ∧ Emits [.other] w.trace w1.trace := by
  unfold update_plugin_manager at h
  split at h
  · cases h
  · cases h
    exact ⟨rfl, rfl, rfl, rfl, rfl, rfl, emits_append _ _ _ (by simp [Event.cls])⟩

theorem update_plugin_manager_isSome (pm : Nat) (w : World)
    (h : w.run.plugin_manager.isSome = true) : (update_plugin_manager pm w).isSome = true := by
  unfold update_plugin_manager
  cases hp : w.run.plugin_manager
  · simp [hp] at h
  · simp

theorem update_dsync_unchanged (s : InfinotedStartup) (w : World)
    (h : dsync_needs_update s.options w.run.dsync = false) : update_dsync s w = w := by
  unfold update_dsync
  simp [h]

theorem update_protector_emits (s : InfinotedStartup) (w : World) :
    Emits [.protector] w.trace (update_protector s w).trace := by
  unfold update_protector
  (repeat' split) <;>
    first
      | exact Emits.refl _ _
      | exact emits_append _ _ _ (by simp [Event.cls])

@[simp] theorem install_startup_startup (s : InfinotedStartup) (w : World) :
    (install_startup s w).run.startup = s := rfl

@[simp] theorem install_startup_trace (s : InfinotedStartup) (w : World) :
    (install_startup s w).trace = w.trace ++ [.startup_free w.run.startup.id] := rfl

@[simp] theorem update_traffic_logger_xmpp4 (s : InfinotedStartup) (w : World) :
    (update_traffic_logger s w).run.xmpp4 = w.run.xmpp4 := by
  unfold update_traffic_logger new_traffic_logger
  cases w.run.traffic_logger <;> cases s.options.traffic_log_directory <;> dsimp only <;>
    (try split_ifs) <;> simp

@[simp] theorem update_traffic_logger_xmpp6 (s : InfinotedStartup) (w : World) :
    (update_traffic_logger s w).run.xmpp6 = w.run.xmpp6 := by
  unfold update_traffic_logger new_traffic_logger
  cases w.run.traffic_logger <;> cases s.options.traffic_log_directory <;> dsimp only <;>
    (try split_ifs) <;> simp

@[simp] theorem update_traffic_logger_pool (s : InfinotedStartup) (w : World) :
    (update_traffic_logger s w).run.pool = w.run.pool := by
  unfold update_traffic_logger new_traffic_logger
  cases w.run.traffic_logger <;> cases s.options.traffic_log_directory <;> dsimp only <;>
    (try split_ifs) <;> simp

@[simp] theorem update_traffic_logger_dsync (s : InfinotedStartup) (w : World) :
    (update_traffic_logger s w).run.dsync = w.run.dsync := by
  unfold update_traffic_logger new_traffic_logger
  cases w.run.traffic_logger <;> cases s.options.traffic_log_directory <;> dsimp only <;>
    (try split_ifs) <;> simp

@[simp] theorem update_traffic_logger_directory (s : InfinotedStartup) (w : World) :
    (update_traffic_logger s w).run.directory = w.run.directory := by
  unfold update_traffic_logger new_traffic_logger
  cases w.run.traffic_logger <;> cases s.options.traffic_log_directory <;> dsimp only <;>
    (try split_ifs) <;> simp

@[simp] theorem update_traffic_logger_startup (s : InfinotedStartup) (w : World) :
    (update_traffic_logger s w).run.startup = w.run.startup := by
  unfold update_traffic_logger new_traffic_logger
  cases w.run.traffic_logger <;> cases s.options.traffic_log_directory <;> dsimp only <;>
    (try split_ifs) <;> simp

theorem update_traffic_logger_emits (s : InfinotedStartup) (w : World) :
    Emits [.traffic] w.trace (update_traffic_logger s w).trace := by
  unfold update_traffic_logger new_traffic_logger
  cases w.run.traffic_logger <;> cases s.options.traffic_log_directory <;> dsimp only <;>
    (try split_ifs) <;> (try simp only [emit_trace, alloc_trace, List.append_assoc]) <;>
    first
      | exact Emits.refl _ _
      | exact emits_append _ _ _ (by simp [Event.cls])

theorem update_dsync_emits (s : InfinotedStartup) (w : World) :
    ∃ evs, (update_dsync s w).trace = w.trace ++ evs ∧ (∀ e ∈ evs, e.cls = .dsync) ∧
      (evs ≠ [] ↔ dsync_needs_update s.options w.run.dsync = true) := by
  unfold update_dsync
  by_cases h : dsync_needs_update s.options w.run.dsync = true
  · simp only [h, if_true]
    unfold dsync_needs_update at h
    cases hd : w.run.dsync <;> cases hdir : s.options.sync_directory <;>
      simp only [hd, hdir] at h ⊢
    · simp at h
    · simp at h
      simp only [h, if_true]
      exact ⟨[.directory_sync_new w.next], by simp, by simp [Event.cls], by simp⟩
    · rename_i d
      exact ⟨[.directory_sync_free d.id], by simp, by simp [Event.cls], by simp⟩
    · rename_i d dir
      split
      · exact ⟨[.directory_sync_free d.id, .directory_sync_new w.next], by simp,
          by simp [Event.cls], by simp⟩
      · exact ⟨[.directory_sync_free d.id], by simp, by simp [Event.cls], by simp⟩
  · simp only [h, if_false]
    exact ⟨[], by simp, by simp, by simp [h]⟩

theorem foreach_connection_spec (connections : List InfXmlConnection) (u : Option Nat)
    (w : World) :
    (connections.foldl
        (fun acc xml => infinoted_config_reload_update_connection_sasl_context xml u acc)
        w).run = w.run ∧
      (connections.foldl
        (fun acc xml => infinoted_config_reload_update_connection_sasl_context xml u acc)
        w).trace = w.trace ++ sasl_resets connections u := by
  induction connections generalizing w with
  | nil => simp [sasl_resets]
  | cons c cs ih =>
    simp only [List.foldl_cons]
    obtain ⟨h1, h2⟩ := ih (infinoted_config_reload_update_connection_sasl_context c u w)
    rw [h1, h2]
    unfold infinoted_config_reload_update_connection_sasl_context
    cases hc : c.is_xmpp <;> simp [sasl_resets, hc, mechanisms_for]

@[simp] theorem update_sasl_xmpp4 (s : InfinotedStartup) (w : World) :
    (update_sasl s w).run.xmpp4 = w.run.xmpp4.map (with_sasl s.sasl_context) := by
  unfold update_sasl infd_directory_foreach_connection
  rw [(foreach_connection_spec _ _ _).1]
  unfold set_sasl
  cases h4 : w.run.xmpp4 <;> cases h6 : w.run.xmpp6 <;>
    simp [h4, h6, with_sasl, mechanisms_for]

@[simp] theorem update_sasl_xmpp6 (s : InfinotedStartup) (w : World) :
    (update_sasl s w).run.xmpp6 = w.run.xmpp6.map (with_sasl s.sasl_context) := by
  unfold update_sasl infd_directory_foreach_connection
  rw [(foreach_connection_spec _ _ _).1]
  unfold set_sasl
  cases h4 : w.run.xmpp4 <;> cases h6 : w.run.xmpp6 <;>
    simp [h4, h6, with_sasl, mechanisms_for]

@[simp] theorem update_sasl_pool (s : InfinotedStartup) (w : World) :
    (update_sasl s w).run.pool = w.run.pool := by
  unfold update_sasl infd_directory_foreach_connection
  rw [(foreach_connection_spec _ _ _).1]
  unfold set_sasl
  cases h4 : w.run.xmpp4 <;> cases h6 : w.run.xmpp6 <;>
    simp [h4, h6, with_sasl, mechanisms_for]

@[simp] theorem update_sasl_dsync (s : InfinotedStartup) (w : World) :
    (update_sasl s w).run.dsync = w.run.dsync := by
  unfold update_sasl infd_directory_foreach_connection
  rw [(foreach_connection_spec _ _ _).1]
  unfold set_sasl
  cases h4 : w.run.xmpp4 <;> cases h6 : w.run.xmpp6 <;>
    simp [h4, h6, with_sasl, mechanisms_for]

@[simp] theorem update_sasl_directory (s : InfinotedStartup) (w : World) :
    (update_sasl s w).run.directory = w.run.directory := by
  unfold update_sasl infd_directory_foreach_connection
  rw [(foreach_connection_spec _ _ _).1]
  unfold set_sasl
  cases h4 : w.run.xmpp4 <;> cases h6 : w.run.xmpp6 <;>
    simp [h4, h6, with_sasl, mechanisms_for]

@[simp] theorem update_sasl_startup (s : InfinotedStartup) (w : World) :
    (update_sasl s w).run.startup = w.run.startup := by
  unfold update_sasl infd_directory_foreach_connection
  rw [(foreach_connection_spec _ _ _).1]
  unfold set_sasl
  cases h4 : w.run.xmpp4 <;> cases h6 : w.run.xmpp6 <;>
    simp [h4, h6, with_sasl, mechanisms_for]

theorem update_sasl_trace (s : InfinotedStartup) (w : World) :
    ∃ pre, (update_sasl s w).trace =
        w.trace ++ pre ++ sasl_resets w.run.directory.connections s.sasl_context ∧
      ∀ e ∈ pre, e.cls = .other := by
  unfold update_sasl infd_directory_foreach_connection
  rw [(foreach_connection_spec _ _ _).2]
  unfold set_sasl
  cases h4 : w.run.xmpp4 <;> cases h6 : w.run.xmpp6 <;> simp only [h4, h6, emit_run, emit_trace]
  · exact ⟨[], by simp, by simp⟩
  · rename_i x
    exact ⟨[.xmpp_server_set_sasl_context x.id s.sasl_context,
      .xmpp_server_set_sasl_mechanisms x.id (if s.sasl_context.isSome then some "PLAIN" else none)],
      by simp, by simp [Event.cls]⟩
  · rename_i x
    exact ⟨[.xmpp_server_set_sasl_context x.id s.sasl_context,
      .xmpp_server_set_sasl_mechanisms x.id (if s.sasl_context.isSome then some "PLAIN" else none)],
      by simp, by simp [Event.cls]⟩
  · rename_i x y
    exact ⟨[.xmpp_server_set_sasl_context x.id s.sasl_context,
      .xmpp_server_set_sasl_mechanisms x.id (if s.sasl_context.isSome then some "PLAIN" else none),
      .xmpp_server_set_sasl_context y.id s.sasl_context,
      .xmpp_server_set_sasl_mechanisms y.id (if s.sasl_context.isSome then some "PLAIN" else none)],
      by simp, by simp [Event.cls]⟩

@[simp] theorem keep_daemonize_sasl_context (cfg : BuildConfig) (s cur : InfinotedStartup) :
    (keep_daemonize cfg s cur).sasl_context = s.sasl_context := by
  unfold keep_daemonize
  split <;> rfl

@[simp] theorem keep_daemonize_id (cfg : BuildConfig) (s cur : InfinotedStartup) :
    (keep_daemonize cfg s cur).id = s.id := by
  unfold keep_daemonize
  split <;> rfl

theorem commit_isSome (cfg : BuildConfig) (c : Candidates) (w : World)
    (h : w.run.plugin_manager.isSome = true) : (commit cfg c w).isSome = true := by
  unfold commit
  have := update_plugin_manager_isSome c.plugin_manager
    (update_storage c.filesystem_storage (update_servers cfg c.startup c.tcp6 c.tcp4 w))
    (by simpa using h)
  dsimp only
  cases hp : update_plugin_manager c.plugin_manager
    (update_storage c.filesystem_storage (update_servers cfg c.startup c.tcp6 c.tcp4 w))
  · simp [hp] at this
  · simp

theorem commit_spec {cfg : BuildConfig} {c : Candidates} {w w1 : World}
    (h : commit cfg c w = some w1) :
    w1.run.startup = keep_daemonize cfg c.startup w.run.startup ∧
      w1.run.xmpp4 = (update_servers cfg c.startup c.tcp6 c.tcp4 w).run.xmpp4.map
        (with_sasl c.startup.sasl_context) ∧
      w1.run.xmpp6 = (update_servers cfg c.startup c.tcp6 c.tcp4 w).run.xmpp6.map
        (with_sasl c.startup.sasl_context) ∧
      w1.run.pool = (update_servers cfg c.startup c.tcp6 c.tcp4 w).run.pool ∧
      w1.run.directory.connections = w.run.directory.connections ∧
      (dsync_needs_update c.startup.options w.run.dsync = false → w1.run.dsync = w.run.dsync) ∧
      ∃ mid, w1.trace = (update_servers cfg c.startup c.tcp6 c.tcp4 w).trace ++ mid ++
          sasl_resets w.run.directory.connections c.startup.sasl_context ++
          [.startup_free w.run.startup.id] ∧
        (∀ e ∈ mid, e.cls ∈ [.other, .dsync, .protector, .traffic]) ∧
        ((∃ e ∈ mid, e.cls = .dsync) ↔
          dsync_needs_update c.startup.options w.run.dsync = true) := by
  unfold commit at h
  dsimp only at h
  split at h
  · cases h
  · rename_i wc hpm
    cases h
    obtain ⟨p4, p6, ppool, pdsync, pdir, pstartup, ⟨epm, hpmt, hpmc⟩⟩ :=
      update_plugin_manager_some hpm
    obtain ⟨est, hstt, hstc⟩ := update_storage_emits c.filesystem_storage
      (update_servers cfg c.startup c.tcp6 c.tcp4 w)
    obtain ⟨eds, hdst, hdsc, hdsn⟩ := update_dsync_emits c.startup wc
    obtain ⟨epr, hprt, hprc⟩ := update_protector_emits c.startup (update_dsync c.startup wc)
    obtain ⟨etr, htrt, htrc⟩ := update_traffic_logger_emits c.startup
      (update_protector c.startup (update_dsync c.startup wc))
    obtain ⟨esa, hsat, hsac⟩ := update_sasl_trace
      (keep_daemonize cfg c.startup (update_traffic_logger c.startup
        (update_protector c.startup (update_dsync c.startup wc))).run.startup)
      (update_traffic_logger c.startup (update_protector c.startup (update_dsync c.startup wc)))
    have hdsync : wc.run.dsync = w.run.dsync := by simp [pdsync]
    refine ⟨by simp [pstartup], by simp [p4], by simp [p6], by simp [ppool], by simp [pdir],
      ?_, ?_⟩
    · intro hno
      rw [← hdsync] at hno
      simp [update_dsync_unchanged _ _ hno, pdsync]
    · refine ⟨est ++ epm ++ eds ++ epr ++ etr ++ esa, ?_, ?_, ?_⟩
      · simp only [install_startup_trace, hsat, htrt, hprt, hdst, hpmt, hstt]
        simp [pdir, pstartup]
      · intro e he
        simp only [List.mem_append] at he
        rcases he with ((((he | he) | he) | he) | he) | he
        · have := hstc e he
          simp_all
        · have := hpmc e he
          simp_all
        · have := hdsc e he
          simp_all
        · have := hprc e he
          simp_all
        · have := htrc e he
          simp_all
        · have := hsac e he
          simp_all
      · rw [← hdsync, ← hdsn]
        constructor
        · rintro ⟨e, he, hcls⟩
          simp only [List.mem_append] at he
          rcases he with ((((he | he) | he) | he) | he) | he
          · have := hstc e he
            simp_all
          · have := hpmc e he
            simp_all
          · intro hnil
            simp [hnil] at he
          · have := hprc e he
            simp_all
          · have := htrc e he
            simp_all
          · have := hsac e he
            simp_all
        · intro hne
          obtain ⟨e, he⟩ := List.exists_mem_of_ne_nil _ hne
          exact ⟨e, by simp [he], hdsc e he⟩

/-! ## The reload as a whole -/

theorem reload_cases {cfg : BuildConfig} {env : Collaborators} {w : World} {r : ReloadResult}
    (h : infinoted_config_reload cfg env w = some r) :
    (r.ret = false ∧ prepare env w = .returned r) ∨
      (r.ret = true ∧ r.error = none ∧
        ∃ c w1, prepare env w = .ready c w1 ∧ commit cfg c w1 = some r.world) := by
  unfold infinoted_config_reload at h
  split at h
  · cases h
  · rename_i r1 hp
    cases h
    exact Or.inl ⟨(prepare_returned hp).1, hp⟩
  · rename_i c w1 hp
    split at h
    · cases h
    · rename_i w2 hc
      cases h
      exact Or.inr ⟨rfl, rfl, c, w1, hp, hc⟩

/-- C1: when `infinoted_config_reload` returns `FALSE`, the IPv4 and IPv6
servers, the servers registered with the pool, the plugin manager, the
storage of the directory and the current startup are the ones from before
the call. -/
theorem reload_failure_leaves_server_untouched (cfg : BuildConfig) (env : Collaborators)
    (w : World) (r : ReloadResult)
    (h : infinoted_config_reload cfg env w = some r) (hret : r.ret = false) :
    r.world.run.xmpp4 = w.run.xmpp4 ∧ r.world.run.xmpp6 = w.run.xmpp6 ∧
      r.world.run.pool = w.run.pool ∧
      r.world.run.plugin_manager = w.run.plugin_manager ∧
      r.world.run.directory.storage = w.run.directory.storage ∧
      r.world.run.startup = w.run.startup := by
  rcases reload_cases h with ⟨-, hp⟩ | ⟨ht, -⟩
  · have hrun := (prepare_returned hp).2.1
    simp [hrun]
  · rw [ht] at hret
    cases hret

/-- The example of C1: the reload of the example server fails at the plugin
manager and leaves the server as it was. -/
theorem reload_failure_leaves_server_untouched_witness :
    infinoted_config_reload example_cfg example_env_plugin_failure example_world =
        some (result_of
          (infinoted_config_reload example_cfg example_env_plugin_failure example_world)) ∧
      (result_of (infinoted_config_reload example_cfg example_env_plugin_failure
        example_world)).world.run.pool = example_world.run.pool ∧
      (result_of (infinoted_config_reload example_cfg example_env_plugin_failure
        example_world)).world.run.startup = example_world.run.startup :=
  have h := reload_failure_leaves_server_untouched example_cfg example_env_plugin_failure
    example_world
    (result_of (infinoted_config_reload example_cfg example_env_plugin_failure example_world))
    (by decide) (by decide)
  ⟨by decide, h.2.2.1, h.2.2.2.2.2⟩
theorem emits_not_mem {S : List EventClass} {t t1 : List Event} (h : Emits S t t1)
    (c : EventClass) (hc : c ∉ S) :
    ∃ evs, t1 = t ++ evs ∧ ∀ e ∈ evs, e.cls ≠ c := by
  obtain ⟨evs, rfl, he⟩ := h
  exact ⟨evs, rfl, fun e hm heq => hc (heq ▸ he e hm)⟩

theorem run_xmpp_true (run : InfinotedRun) : run.xmpp true = run.xmpp6 := rfl

theorem run_xmpp_false (run : InfinotedRun) : run.xmpp false = run.xmpp4 := rfl

theorem prepare_after_bind_returned_no_tcp {env : Collaborators} {s : InfinotedStartup}
    {w : World} {r : ReloadResult}
    (h : prepare_after_bind env s none none w = .returned r) :
    ∃ t, r.world.trace = t ++ [.startup_free s.id] ∧
      Emits [.other, .plugin, .storage] w.trace t := by
  unfold prepare_after_bind at h
  dsimp only at h
  have e1 := ((Emits.refl [.other, .plugin, .storage] w.trace).step
    (read_storage_emits w) (by decide)).step
    (create_plugin_manager_emits env s (read_storage w)) (by decide)
  cases hpm : env.plugin_manager_new with
  | some e =>
    simp only [hpm] at h
    split_ifs at h
    cases h
    exact ⟨_, rfl, e1⟩
  | none =>
    simp only [hpm] at h
    split_ifs at h with h1 h2
    cases h
    simp at h2

theorem prepare_servers_returned_same_port {env : Collaborators} {s : InfinotedStartup}
    {w : World} {r : ReloadResult} (h : prepare_servers env s w = .returned r)
    (hport : current_port w.run = some s.options.port) :
    ∃ t, r.world.trace = t ++ [.startup_free s.id] ∧
      Emits [.other, .plugin, .storage] w.trace t := by
  unfold prepare_servers at h
  simp only [get_tcp_servers_run, hport, bne_self_eq_false, Bool.false_eq_true, if_false] at h
  obtain ⟨t, h1, h2⟩ := prepare_after_bind_returned_no_tcp h
  exact ⟨t, h1, (((Emits.refl [.other, .plugin, .storage] w.trace).step
    (get_tcp_servers_emits w) (by decide)).step
    (unref_tcp_servers_emits (get_tcp_servers w)) (by decide)).trans h2⟩

theorem prepare_returned_same_port {env : Collaborators} {w : World} {r : ReloadResult}
    {contents : StartupContents} (h : prepare env w = .returned r)
    (hc : env.startup_new = .ok contents)
    (hport : current_port w.run = some contents.options.port) :
    ∃ t, r.world.trace = t ++ [.startup_free w.next] ∧
      Emits [.other, .plugin, .storage] w.trace t := by
  unfold prepare at h
  simp only [hc] at h
  have e1 := ((Emits.refl [.other, .plugin, .storage] w.trace).step
    (startup_created_emits (startup_of w.next contents) w) (by decide)).step
    (ensure_dh_params_emits env (startup_of w.next contents)
      (startup_created (startup_of w.next contents) w)) (by decide)
  split at h
  · cases h
    exact ⟨_, rfl, e1⟩
  · obtain ⟨t, h1, h2⟩ := prepare_servers_returned_same_port h
      (by simpa [startup_of] using hport)
    exact ⟨t, h1, e1.trans h2⟩

/-- C2: when the port of the new options is the port the server runs on, the
reload makes no call that creates, binds or opens a TCP server or wraps one
into an XMPP server; and if it returns `TRUE`, each server that was there
is still there, the same object around the same TCP server, now with the
credentials and the security policy of the new startup, the credentials having
been set right before the security policy; an absent server stays absent. -/
theorem reload_same_port_reconfigures_in_place (cfg : BuildConfig) (env : Collaborators)
    (w : World) (r : ReloadResult) (contents : StartupContents)
    (hc : env.startup_new = .ok contents)
    (hport : current_port w.run = some contents.options.port)
    (h : infinoted_config_reload cfg env w = some r) :
    ∃ evs, r.world.trace = w.trace ++ evs ∧ (∀ e ∈ evs, e.cls ≠ .listener) ∧
      (r.ret = true → ∀ ipv6 : Bool,
        (w.run.xmpp ipv6 = none → r.world.run.xmpp ipv6 = none) ∧
        ∀ x, w.run.xmpp ipv6 = some x →
          (∃ y, r.world.run.xmpp ipv6 = some y ∧ y.id = x.id ∧ y.tcp_server = x.tcp_server ∧
            y.credentials = contents.credentials ∧
            y.security_policy = contents.options.security_policy) ∧
          ∃ pre post, evs = pre ++
            [.xmpp_server_set_credentials x.id contents.credentials,
             .xmpp_server_set_security_policy x.id contents.options.security_policy] ++
            post) := by
  rcases reload_cases h with ⟨hf, hp⟩ | ⟨ht, -, c, w1, hp, hcm⟩
  · obtain ⟨t, h1, h2⟩ := prepare_returned_same_port hp hc hport
    obtain ⟨evs, rfl, he⟩ := h2
    refine ⟨evs ++ [.startup_free w.next], by simp [h1], ?_, ?_⟩
    · intro e hm
      rcases List.mem_append.mp hm with hm | hm
      · intro heq
        have := he e hm
        rw [heq] at this
        simp at this
      · simp at hm
        subst hm
        simp [Event.cls]
    · intro ht
      rw [hf] at ht
      cases ht
  · obtain ⟨c2, port, hc2, hp2, -, hs, hrun, -, -, -, -, hsame, -⟩ := prepare_ready hp
    rw [hc] at hc2
    cases hc2
    rw [hport] at hp2
    cases hp2
    obtain ⟨h6, h4, hem⟩ := hsame rfl
    obtain ⟨q1, q4, q6, -, -, -, mid, hmid, hmidc, -⟩ := commit_spec hcm
    rw [h6, h4] at q4 q6 hmid
    obtain ⟨u6, u4, -, uem, upre⟩ := update_servers_in_place cfg c.startup w1
    obtain ⟨e1, he1, hc1⟩ := hem
    obtain ⟨e2, he2, hc2⟩ := uem
    rw [he2, he1] at hmid
    refine ⟨e1 ++ e2 ++ mid ++ sasl_resets w1.run.directory.connections c.startup.sasl_context
      ++ [.startup_free w1.run.startup.id], by simp [hmid], ?_, ?_⟩
    · intro e hm
      simp only [List.mem_append, List.mem_singleton] at hm
      rcases hm with (((hm | hm) | hm) | hm) | hm
      · have := hc1 e hm
        intro heq
        simp [heq] at this
      · have := hc2 e hm
        intro heq
        simp [heq] at this
      · have := hmidc e hm
        intro heq
        simp [heq] at this
      · simp only [sasl_resets, List.mem_map] at hm
        obtain ⟨cn, -, rfl⟩ := hm
        simp [Event.cls]
      · subst hm
        simp [Event.cls]
    · intro _ ipv6
      have hcred : c.startup.credentials = contents.credentials := by rw [hs]; rfl
      have hpol : c.startup.options.security_policy = contents.options.security_policy := by
        rw [hs]; rfl
      cases ipv6
      · simp only [run_xmpp_false]
        rw [q4, u4, hrun]
        refine ⟨fun hn => by simp [hn], ?_⟩
        intro x hx
        refine ⟨⟨with_sasl c.startup.sasl_context
          { x with credentials := c.startup.credentials,
                   security_policy := c.startup.options.security_policy },
          by rw [hx]; rfl, rfl, rfl, hcred, hpol⟩, ?_⟩
        obtain ⟨pre, post, hpp⟩ := upre x (Or.inr (hrun ▸ hx))
        rw [he2] at hpp
        have := List.append_cancel_left (by simpa [List.append_assoc] using hpp :
          w1.trace ++ e2 = w1.trace ++ (pre ++
            [.xmpp_server_set_credentials x.id c.startup.credentials,
             .xmpp_server_set_security_policy x.id c.startup.options.security_policy] ++ post))
        refine ⟨e1 ++ pre, post ++ mid ++
          sasl_resets w1.run.directory.connections c.startup.sasl_context
          ++ [.startup_free w1.run.startup.id], ?_⟩
        rw [this, hcred, hpol]
        simp [hrun]
      · simp only [run_xmpp_true]
        rw [q6, u6, hrun]
        refine ⟨fun hn => by simp [hn], ?_⟩
        intro x hx
        refine ⟨⟨with_sasl c.startup.sasl_context
          { x with credentials := c.startup.credentials,
                   security_policy := c.startup.options.security_policy },
          by rw [hx]; rfl, rfl, rfl, hcred, hpol⟩, ?_⟩
        obtain ⟨pre, post, hpp⟩ := upre x (Or.inl (hrun ▸ hx))
        rw [he2] at hpp
        have := List.append_cancel_left (by simpa [List.append_assoc] using hpp :
          w1.trace ++ e2 = w1.trace ++ (pre ++
            [.xmpp_server_set_credentials x.id c.startup.credentials,
             .xmpp_server_set_security_policy x.id c.startup.options.security_policy] ++ post))
        refine ⟨e1 ++ pre, post ++ mid ++
          sasl_resets w1.run.directory.connections c.startup.sasl_context
          ++ [.startup_free w1.run.startup.id], ?_⟩
        rw [this, hcred, hpol]
        simp [hrun]

/-- The example of C2: a reload of the example server with unchanged options
returns `TRUE`, creates no server and sets the credentials on the IPv6
server. -/
theorem reload_same_port_reconfigures_in_place_witness :
    current_port example_world.run = some example_options.port ∧
      infinoted_config_reload example_cfg (example_env example_options) example_world =
        some (result_of
          (infinoted_config_reload example_cfg (example_env example_options) example_world)) ∧
      ∃ evs, (result_of (infinoted_config_reload example_cfg (example_env example_options)
          example_world)).world.trace = example_world.trace ++ evs ∧
        ∀ e ∈ evs, e.cls ≠ .listener :=
  ⟨by decide, by decide,
    (reload_same_port_reconfigures_in_place example_cfg (example_env example_options)
      example_world
      (result_of (infinoted_config_reload example_cfg (example_env example_options)
        example_world))
      { options := example_options, credentials := some 201, sasl_context := some 202,
        log := some 200 }
      rfl (by decide) (by decide)).imp (fun _ hx => ⟨hx.1, hx.2.1⟩)⟩

theorem bind_new_servers_fails {env : Collaborators} (port : Nat) (w : World)
    (h6 : env.bind6.isSome = true) (h4 : env.bind4.isSome = true) :
    ∃ e w1, bind_new_servers env port w = .failed e w1 ∧ env.bind4 = some e ∧
      Emits [.other, .listener] w.trace w1.trace := by
  cases hb4 : env.bind4 with
  | none => simp [hb4] at h4
  | some e =>
    cases hb6 : env.bind6 with
    | none => simp [hb6] at h6
    | some e6 =>
      have hb : bind_new_servers env port w = .failed e
          ((((((w.alloc.emit (.tcp_server_new w.next true port)).emit
            (.tcp_server_bind w.next false)).emit (.tcp_server_unref w.next)).alloc.emit
            (.tcp_server_new (w.next + 1) false port)).emit
            (.tcp_server_bind (w.next + 1) false)).emit (.tcp_server_unref (w.next + 1))) := by
        unfold bind_new_servers
        simp [hb4, hb6]
      exact ⟨e, _, hb, rfl, (bind_new_servers_failed hb).2.2.2⟩

/-- C3: when the port of the new options differs from the port the server
runs on and neither the IPv6 nor the IPv4 server can be bound, the reload
returns `FALSE` and has made no call that constructs a plugin manager or a
storage, and none that creates, frees or updates the directory
synchronization, the transformation protector or the traffic logger. -/
theorem reload_both_binds_fail (cfg : BuildConfig) (env : Collaborators) (w : World)
    (contents : StartupContents) (port : Nat)
    (hc : env.startup_new = .ok contents)
    (hport : current_port w.run = some port) (hne : contents.options.port ≠ port)
    (h6 : env.bind6.isSome = true) (h4 : env.bind4.isSome = true) :
    ∃ r, infinoted_config_reload cfg env w = some r ∧ r.ret = false ∧
      ∃ evs, r.world.trace = w.trace ++ evs ∧
        ∀ e ∈ evs, e.cls ≠ .plugin ∧ e.cls ≠ .storage ∧ e.cls ≠ .dsync ∧
          e.cls ≠ .protector ∧ e.cls ≠ .traffic := by
  have e1 := ((Emits.refl [.other, .listener] w.trace).step
    (startup_created_emits (startup_of w.next contents) w) (by decide)).step
    (ensure_dh_params_emits env (startup_of w.next contents)
      (startup_created (startup_of w.next contents) w)) (by decide)
  have key : ∃ r t, prepare env w = .returned r ∧ r.ret = false ∧
      r.world.trace = t ++ [.startup_free w.next] ∧ Emits [.other, .listener] w.trace t := by
    unfold prepare
    simp only [hc]
    cases hdh : dh_params_error env (startup_of w.next contents) with
    | some e => exact ⟨_, _, rfl, rfl, rfl, e1⟩
    | none =>
      dsimp only
      unfold prepare_servers
      have hne2 : ((startup_of w.next contents).options.port != port) = true := by
        simpa [startup_of] using hne
      simp only [get_tcp_servers_run, ensure_dh_params_run, startup_created_run, hport, hne2,
        if_true]
      obtain ⟨e, w2, hb, -, hem⟩ := bind_new_servers_fails (startup_of w.next contents).options.port
        (unref_tcp_servers (get_tcp_servers (ensure_dh_params env (startup_of w.next contents)
          (startup_created (startup_of w.next contents) w)))) h6 h4
      rw [hb]
      exact ⟨_, _, rfl, rfl, rfl, ((e1.step (get_tcp_servers_emits _) (by decide)).step
        (unref_tcp_servers_emits _) (by decide)).trans hem⟩
  obtain ⟨r, t, hp, hret, htr, evs, rfl, hcls⟩ := key
  refine ⟨r, by unfold infinoted_config_reload; rw [hp], hret,
    evs ++ [.startup_free w.next], by simp [htr], ?_⟩
  intro e hm
  rcases List.mem_append.mp hm with hm | hm
  · have := hcls e hm
    simp only [List.mem_cons, List.mem_singleton, List.not_mem_nil, or_false] at this
    rcases this with h | h <;> simp [h]
  · simp only [List.mem_singleton] at hm
    subst hm
    simp [Event.cls]

/-- The example of C3: on the example server, a reload to port 7000 on which
nothing can be bound. -/
theorem reload_both_binds_fail_witness :
    ∃ r, infinoted_config_reload example_cfg example_env_no_bind example_world = some r ∧
      r.ret = false ∧
      ∃ evs, r.world.trace = example_world.trace ++ evs ∧
        ∀ e ∈ evs, e.cls ≠ .plugin ∧ e.cls ≠ .storage ∧ e.cls ≠ .dsync ∧
          e.cls ≠ .protector ∧ e.cls ≠ .traffic :=
  reload_both_binds_fail example_cfg example_env_no_bind example_world
    { options := { example_options with port := 7000 }, credentials := some 201,
      sasl_context := some 202, log := some 200 }
    6523 rfl (by decide) (by decide) (by decide) (by decide)

theorem prepare_ready_of_one_family {env : Collaborators} {w : World}
    {contents : StartupContents} {port : Nat}
    (hfs : w.run.directory.storage.is_filesystem = true)
    (hc : env.startup_new = .ok contents)
    (hdh : dh_params_error env (startup_of w.next contents) = none)
    (hport : current_port w.run = some port) (hne : contents.options.port ≠ port)
    (hplug : env.plugin_manager_new = none)
    (hany : (env.bind6 = none ∧ env.open6 = none) ∨ (env.bind4 = none ∧ env.open4 = none)) :
    ∃ c w1, prepare env w = .ready c w1 := by
  unfold prepare
  simp only [hc, hdh]
  unfold prepare_servers
  have hne2 : ((startup_of w.next contents).options.port != port) = true := by
    simpa [startup_of] using hne
  simp only [get_tcp_servers_run, ensure_dh_params_run, startup_created_run, hport, hne2,
    if_true]
  have hw2 : (unref_tcp_servers (get_tcp_servers (ensure_dh_params env
      (startup_of w.next contents) (startup_created (startup_of w.next contents) w)))).run =
      w.run := by simp
  generalize unref_tcp_servers (get_tcp_servers (ensure_dh_params env (startup_of w.next contents)
    (startup_created (startup_of w.next contents) w))) = w2 at *
  have hrun2 : ∀ t6 t4 w3, w3.run = w.run → (t4.isSome || t6.isSome) = true →
      ((if env.open4.isNone then t4 else none).isNone &&
        (if env.open6.isNone then t6 else none).isNone) = false →
      ∃ c w1, prepare_after_bind env (startup_of w.next contents) t6 t4 w3 = .ready c w1 := by
    intro t6 t4 w3 hr hsome hopen
    unfold prepare_after_bind
    simp only [hr, hfs, hplug, hsome, open_new_servers_tcp4, open_new_servers_tcp6, hopen]
    simp
  cases hb : bind_new_servers env (startup_of w.next contents).options.port w2 with
  | failed e w3 =>
    obtain ⟨-, hb6, hb4, -⟩ := bind_new_servers_failed hb
    rcases hany with ⟨h, -⟩ | ⟨h, -⟩
    · simp [h] at hb6
    · simp [h] at hb4
  | bound t6 t4 w3 =>
    obtain ⟨hr, -, ht6, ht4, hsome, -⟩ := bind_new_servers_bound hb
    refine hrun2 t6 t4 w3 (hr.trans hw2) hsome ?_
    rcases hany with ⟨h1, h2⟩ | ⟨h1, h2⟩
    · simp [ht6, h1, h2]
    · simp [ht4, h1, h2]

/-- C4: for one address family, when the port changes, the new startup is
built with its Diffie-Hellman parameters, the plugin manager is built, and
the TCP server of that family is the only one both bound and opened, the
reload returns `TRUE`; the server of that family is then a new XMPP server
(registered with the pool) around that TCP server, there is no server of the
other family, and every server there was before has been removed from the
pool and closed. -/
theorem reload_single_family (cfg : BuildConfig) (env : Collaborators) (w : World)
    (contents : StartupContents) (port : Nat) (ipv6 : Bool)
    (hpm : w.run.plugin_manager.isSome = true)
    (hfs : w.run.directory.storage.is_filesystem = true)
    (hfresh : ∀ x, w.run.xmpp6 = some x ∨ w.run.xmpp4 = some x → x.id < w.next)
    (hc : env.startup_new = .ok contents)
    (hdh : contents.credentials.isSome = true → env.dh_params_ensure = none)
    (hport : current_port w.run = some port) (hne : contents.options.port ≠ port)
    (hplug : env.plugin_manager_new = none)
    (hfam : env.bind ipv6 = none ∧ env.opening ipv6 = none)
    (hother : ¬ (env.bind (!ipv6) = none ∧ env.opening (!ipv6) = none)) :
    ∃ r, infinoted_config_reload cfg env w = some r ∧ r.ret = true ∧
      (∃ x, r.world.run.xmpp ipv6 = some x ∧ w.next ≤ x.id ∧ x.id ∈ r.world.run.pool ∧
        x.tcp_server = { id := w.next + (if ipv6 then 1 else 2), ipv6 := ipv6,
                         local_port := contents.options.port }) ∧
      r.world.run.xmpp (!ipv6) = none ∧
      ∃ evs, r.world.trace = w.trace ++ evs ∧
        ∀ x, w.run.xmpp6 = some x ∨ w.run.xmpp4 = some x →
          x.id ∉ r.world.run.pool ∧ .pool_remove_server x.id ∈ evs ∧
            .xml_server_close x.id ∈ evs := by
  have hdh2 : dh_params_error env (startup_of w.next contents) = none := by
    unfold dh_params_error
    by_cases hcr : contents.credentials.isSome = true
    · simp [startup_of, hcr, hdh hcr]
    · simp [startup_of, hcr]
  have hany : (env.bind6 = none ∧ env.open6 = none) ∨ (env.bind4 = none ∧ env.open4 = none) := by
    cases ipv6
    · exact Or.inr hfam
    · exact Or.inl hfam
  obtain ⟨c, w1, hp⟩ := prepare_ready_of_one_family hfs hc hdh2 hport hne hplug hany
  obtain ⟨c2, port2, hc2, hp2, -, hs, hrun, hnext, -, -, ⟨e1, he1, -⟩, -, hdiff⟩ := prepare_ready hp
  rw [hc] at hc2
  cases hc2
  rw [hport] at hp2
  cases hp2
  obtain ⟨ht6, ht4, hsome⟩ := hdiff hne
  have hcs := commit_isSome cfg c w1 (by rw [hrun]; exact hpm)
  obtain ⟨w2, hcm⟩ := Option.isSome_iff_exists.mp hcs
  obtain ⟨-, q4, q6, qpool, -, -, mid, hmid, -, -⟩ := commit_spec hcm
  obtain ⟨s6, s4, spool, sreg, sold⟩ := update_servers_swapped cfg c.startup c.tcp6 c.tcp4 w1 hsome
  obtain ⟨e2, he2, -⟩ := update_servers_emits cfg c.startup c.tcp6 c.tcp4 w1
  refine ⟨{ ret := true, error := none, world := w2 }, ?_, rfl, ?_, ?_, ?_⟩
  · unfold infinoted_config_reload
    rw [hp]
    simp only [hcm]
  · dsimp only
    cases ipv6
    · simp only [Collaborators.bind, Collaborators.opening, Bool.false_eq_true, if_false]
        at hfam
      have h4 : c.tcp4 =
          some ⟨w.next + 2, false, contents.options.port⟩ := by
        rw [ht4]
        simp [hfam.1, hfam.2]
      have hx4 : (update_servers cfg c.startup c.tcp6 c.tcp4 w1).run.xmpp4 =
          some { id := w1.next + (if c.tcp6.isSome then 1 else 0),
                 tcp_server := ⟨w.next + 2, false, contents.options.port⟩,
                 security_policy := c.startup.options.security_policy,
                 credentials := c.startup.credentials, sasl_context := none,
                 sasl_mechanisms := none } := by
        rw [s4, h4]
        rfl
      refine ⟨_, by rw [run_xmpp_false, q4, hx4]; rfl, ?_, ?_, ?_⟩
      · simp only [with_sasl]
        omega
      · rw [qpool]
        have hreg := sreg _ (Or.inr hx4)
        simpa [with_sasl] using hreg
      · simp [with_sasl]
    · simp only [Collaborators.bind, Collaborators.opening, if_true] at hfam
      have h6 : c.tcp6 =
          some ⟨w.next + 1, true, contents.options.port⟩ := by
        rw [ht6]
        simp [hfam.1, hfam.2]
      have hx6 : (update_servers cfg c.startup c.tcp6 c.tcp4 w1).run.xmpp6 =
          some { id := w1.next,
                 tcp_server := ⟨w.next + 1, true, contents.options.port⟩,
                 security_policy := c.startup.options.security_policy,
                 credentials := c.startup.credentials, sasl_context := none,
                 sasl_mechanisms := none } := by
        rw [s6, h6]
        rfl
      refine ⟨_, by rw [run_xmpp_true, q6, hx6]; rfl, ?_, ?_, ?_⟩
      · simp only [with_sasl]
        omega
      · rw [qpool]
        have hreg := sreg _ (Or.inl hx6)
        simpa [with_sasl] using hreg
      · simp [with_sasl]
  · dsimp only
    cases ipv6
    · simp only [Collaborators.bind, Collaborators.opening, Bool.not_false, if_true] at hother
      have h6 : c.tcp6 = none := by
        rw [ht6]
        cases hb : env.bind6 <;> cases ho : env.open6 <;> simp_all
      rw [Bool.not_false, run_xmpp_true, q6, s6, h6]
      rfl
    · simp only [Collaborators.bind, Collaborators.opening, Bool.not_true, Bool.false_eq_true,
        if_false] at hother
      have h4 : c.tcp4 = none := by
        rw [ht4]
        cases hb : env.bind4 <;> cases ho : env.open4 <;> simp_all
      rw [Bool.not_true, run_xmpp_false, q4, s4, h4]
      rfl
  · refine ⟨e1 ++ e2 ++ mid ++ sasl_resets w1.run.directory.connections c.startup.sasl_context ++
      [.startup_free w1.run.startup.id], by simp [hmid, he2, he1], ?_⟩
    intro x hx
    have hx1 : w1.run.xmpp6 = some x ∨ w1.run.xmpp4 = some x := by rw [hrun]; exact hx
    obtain ⟨e3, he3, hrem, hclose⟩ := sold x hx1
    have he23 : e2 = e3 := List.append_cancel_left (he2.symm.trans he3)
    subst he23
    refine ⟨?_, by simp [hrem], by simp [hclose]⟩
    dsimp only
    rw [qpool]
    intro hmem
    have hlt := hfresh x hx
    rcases spool _ hmem with hle | ⟨-, h6, h4⟩
    · omega
    · rcases hx1 with hx1 | hx1
      · exact h6 x hx1 rfl
      · exact h4 x hx1 rfl

/-- The example of C4: on the example server, a reload to port 7000 where the
IPv4 server is bound but cannot be opened: the IPv6 server is the only one. -/
theorem reload_single_family_witness :
    ∃ r, infinoted_config_reload example_cfg example_env_ipv6_only example_world = some r ∧
      r.ret = true ∧
      (∃ x, r.world.run.xmpp true = some x ∧ example_world.next ≤ x.id ∧
        x.id ∈ r.world.run.pool ∧
        x.tcp_server = { id := example_world.next + (if true then 1 else 2), ipv6 := true,
                         local_port := 7000 }) ∧
      r.world.run.xmpp (!true) = none ∧
      ∃ evs, r.world.trace = example_world.trace ++ evs ∧
        ∀ x, example_world.run.xmpp6 = some x ∨ example_world.run.xmpp4 = some x →
          x.id ∉ r.world.run.pool ∧ .pool_remove_server x.id ∈ evs ∧
            .xml_server_close x.id ∈ evs :=
  reload_single_family example_cfg example_env_ipv6_only example_world
    { options := { example_options with port := 7000 }, credentials := some 201,
      sasl_context := some 202, log := some 200 }
    6523 true (by decide) (by decide)
    (by
      intro x hx
      rcases hx with hx | hx
      · cases hx
        decide
      · cases hx)
    rfl (fun _ => rfl) (by decide) (by decide) rfl ⟨rfl, rfl⟩ (by decide)

/-- C5: if at least one of the IPv6 and IPv4 servers is active when
`infinoted_config_reload` is called, at least one is active when it returns,
whatever it returns. -/
theorem reload_keeps_a_listener (cfg : BuildConfig) (env : Collaborators) (w : World)
    (r : ReloadResult) (hl : w.run.has_listener)
    (h : infinoted_config_reload cfg env w = some r) : r.world.run.has_listener := by
  rcases reload_cases h with ⟨-, hp⟩ | ⟨-, -, c, w1, hp, hcm⟩
  · rw [(prepare_returned hp).2.1]
    exact hl
  · obtain ⟨contents, port, -, -, -, -, hrun, -, -, -, -, hsame, hdiff⟩ := prepare_ready hp
    obtain ⟨-, q4, q6, -⟩ := commit_spec hcm
    unfold InfinotedRun.has_listener at hl ⊢
    rw [q4, q6]
    by_cases hport : contents.options.port = port
    · obtain ⟨h6, h4, -⟩ := hsame hport
      obtain ⟨u6, u4, -⟩ := update_servers_in_place cfg c.startup w1
      rw [h6, h4, u6, u4, hrun]
      simpa using hl
    · obtain ⟨-, -, hsome⟩ := hdiff hport
      obtain ⟨s6, s4, -⟩ := update_servers_swapped cfg c.startup c.tcp6 c.tcp4 w1 hsome
      rw [s6, s4]
      simp only [Option.isSome_map']
      simpa [or_comm] using hsome

/-- The example of C5: the example server has a listener before and after a
reload that moves it to port 7000. -/
theorem reload_keeps_a_listener_witness :
    example_world.run.has_listener ∧
      (result_of (infinoted_config_reload example_cfg example_env_ipv6_only
        example_world)).world.run.has_listener :=
  ⟨Or.inl rfl,
    reload_keeps_a_listener example_cfg example_env_ipv6_only example_world
      (result_of (infinoted_config_reload example_cfg example_env_ipv6_only example_world))
      (Or.inl rfl) (by decide)⟩
theorem dsync_needs_update_iff (options : InfinotedOptions)
    (dsync : Option InfinotedDirectorySync) :
    dsync_needs_update options dsync = true ↔ dsync_changed options dsync = true := by
  unfold dsync_needs_update dsync_changed sync_enabled
  cases dsync with
  | none => simp
  | some d =>
    cases hdir : options.sync_directory with
    | none => simp
    | some dir =>
      simp only [bne_iff_ne, Bool.or_eq_true, Option.isSome_some, Bool.and_true, ne_eq,
        Option.some.injEq, decide_eq_decide]
      constructor
      · rintro (h | h | h)
        · exact Or.inl (Or.inl (Or.inr h))
        · exact Or.inl (Or.inr h)
        · exact Or.inr h
      · rintro (((h | h) | h) | h)
        · left
          intro heq
          exact h (by rw [heq])
        · exact Or.inl h
        · exact Or.inr (Or.inl h)
        · exact Or.inr (Or.inr h)

theorem cls_dsync_iff (e : Event) :
    e.cls = .dsync ↔ (∃ i, e = .directory_sync_free i) ∨ (∃ i, e = .directory_sync_new i) := by
  cases e <;> simp [Event.cls]

/-- C6: after a reload that returned `TRUE`, the directory synchronization has
been freed and/or created if and only if the running one and the new options
differ in being enabled (a positive interval and a directory), in the
interval, in the directory or in the hook; in every other case the
directory synchronization of the server is the same object as before, or is
still absent. -/
theorem reload_dsync_recreated_iff_changed (cfg : BuildConfig) (env : Collaborators)
    (w : World) (r : ReloadResult) (contents : StartupContents)
    (hc : env.startup_new = .ok contents)
    (h : infinoted_config_reload cfg env w = some r) (hret : r.ret = true) :
    ∃ evs, r.world.trace = w.trace ++ evs ∧
      ((∃ e ∈ evs, (∃ i, e = .directory_sync_free i) ∨ (∃ i, e = .directory_sync_new i)) ↔
        dsync_changed contents.options w.run.dsync = true) ∧
      (dsync_changed contents.options w.run.dsync = false →
        r.world.run.dsync.map (fun d => d.id) = w.run.dsync.map (fun d => d.id)) := by
  rcases reload_cases h with ⟨hf, -⟩ | ⟨-, -, c, w1, hp, hcm⟩
  · rw [hf] at hret
    cases hret
  · obtain ⟨c2, port, hc2, -, -, hs, hrun, -, -, -, ⟨e1, he1, hc1⟩, -, -⟩ := prepare_ready hp
    rw [hc] at hc2
    cases hc2
    obtain ⟨-, -, -, -, -, qd, mid, hmid, hmidc, hiff⟩ := commit_spec hcm
    obtain ⟨e2, he2, hcl2⟩ := update_servers_emits cfg c.startup c.tcp6 c.tcp4 w1
    have hopt : dsync_needs_update c.startup.options w1.run.dsync =
        dsync_needs_update contents.options w.run.dsync := by
      rw [hs, hrun]
      rfl
    rw [hopt] at qd hiff
    refine ⟨e1 ++ e2 ++ mid ++ sasl_resets w1.run.directory.connections c.startup.sasl_context ++
      [.startup_free w1.run.startup.id], by simp [hmid, he2, he1], ?_, ?_⟩
    · rw [← dsync_needs_update_iff, ← hiff]
      constructor
      · rintro ⟨e, hm, hd⟩
        rw [← cls_dsync_iff] at hd
        simp only [List.mem_append, List.mem_singleton] at hm
        rcases hm with (((hm | hm) | hm) | hm) | hm
        · have := hc1 e hm
          simp [hd] at this
        · have := hcl2 e hm
          simp [hd] at this
        · exact ⟨e, hm, hd⟩
        · simp only [sasl_resets, List.mem_map] at hm
          obtain ⟨cn, -, rfl⟩ := hm
          simp [Event.cls] at hd
        · subst hm
          simp [Event.cls] at hd
      · rintro ⟨e, hm, hd⟩
        exact ⟨e, by simp [hm], (cls_dsync_iff e).mp hd⟩
    · intro hno
      have hno2 : dsync_needs_update contents.options w.run.dsync = false := by
        cases hd : dsync_needs_update contents.options w.run.dsync
        · rfl
        · rw [(dsync_needs_update_iff _ _).mp hd] at hno
          cases hno
      rw [qd hno2, hrun]

/-- The example of C6: a reload of the example server with unchanged options
leaves the directory synchronization alone. -/
theorem reload_dsync_recreated_iff_changed_witness :
    ∃ evs, (result_of (infinoted_config_reload example_cfg (example_env example_options)
        example_world)).world.trace = example_world.trace ++ evs ∧
      ((∃ e ∈ evs, (∃ i, e = .directory_sync_free i) ∨ (∃ i, e = .directory_sync_new i)) ↔
        dsync_changed example_options example_world.run.dsync = true) ∧
      (dsync_changed example_options example_world.run.dsync = false →
        (result_of (infinoted_config_reload example_cfg (example_env example_options)
          example_world)).world.run.dsync.map (fun d => d.id) =
          example_world.run.dsync.map (fun d => d.id)) :=
  reload_dsync_recreated_iff_changed example_cfg (example_env example_options) example_world
    (result_of (infinoted_config_reload example_cfg (example_env example_options)
      example_world))
    { options := example_options, credentials := some 201, sasl_context := some 202,
      log := some 200 }
    rfl (by decide) (by decide)

/-- The log of a directory synchronization that the reload leaves running is
not touched: after a reload that returned `TRUE` without a change to the
directory synchronization, the task is the record it was before, its `log`
included. -/
theorem reload_leaves_dsync_log (cfg : BuildConfig) (env : Collaborators) (w : World)
    (r : ReloadResult) (contents : StartupContents)
    (hc : env.startup_new = .ok contents)
    (h : infinoted_config_reload cfg env w = some r) (hret : r.ret = true)
    (hsame : dsync_needs_update contents.options w.run.dsync = false) :
    r.world.run.dsync = w.run.dsync := by
  rcases reload_cases h with ⟨hf, -⟩ | ⟨-, -, c, w1, hp, hcm⟩
  · rw [hf] at hret
    cases hret
  · obtain ⟨c2, port, hc2, -, -, hs, hrun, -⟩ := prepare_ready hp
    rw [hc] at hc2
    cases hc2
    obtain ⟨-, -, -, -, -, qd, -⟩ := commit_spec hcm
    have hopt : dsync_needs_update c.startup.options w1.run.dsync =
        dsync_needs_update contents.options w.run.dsync := by
      rw [hs, hrun]
      rfl
    rw [qd (hopt.trans hsame), hrun]

/-- C7, at the failing input: the example server runs a directory
synchronization that logs to the log 100 of the current startup 0; a reload
with unchanged options returns `TRUE`, frees startup 0 and installs a
startup whose log is 200, and the directory synchronization, left running,
still refers to log 100. -/
theorem reload_dsync_log_stale :
    (infinoted_config_reload example_cfg (example_env example_options) example_world).map
        (fun r => (r.ret, r.world.run.dsync.map (fun d => (d.id, d.log)),
          r.world.run.startup.log,
          decide (Event.startup_free example_world.run.startup.id ∈ r.world.trace))) =
      some (true, some (7, some 100), some 200, true) ∧
    example_world.run.dsync.map (fun d => (d.id, d.log)) = some (7, some 100) ∧
    example_world.run.startup.log = some 100 := by
  decide

/-- C8, at the failing input: the example server is reloaded to port 7000;
the IPv6 server 21 is created and bound, the IPv4 server cannot be bound, and
the plugin manager cannot be built.  The reload returns `FALSE` and server 21
has not been released. -/
theorem reload_plugin_failure_leaks_listener :
    (infinoted_config_reload example_cfg example_env_port_plugin_failure example_world).map
        (fun r => (r.ret,
          decide (Event.tcp_server_new 21 true 7000 ∈ r.world.trace),
          decide (Event.tcp_server_bind 21 true ∈ r.world.trace),
          decide (Event.tcp_server_unref 21 ∈ r.world.trace))) =
      some (false, true, true, false) := by
  decide

theorem count_startup_free_zero {S : List EventClass} {evs : List Event}
    (h : ∀ e ∈ evs, e.cls ∈ S) (hS : EventClass.bundle ∉ S) (i : Nat) :
    evs.count (.startup_free i) = 0 := by
  rw [List.count_eq_zero]
  intro hm
  exact hS (h _ hm)

theorem count_sasl_resets (connections : List InfXmlConnection) (u : Option Nat) (i : Nat) :
    (sasl_resets connections u).count (.startup_free i) = 0 := by
  rw [List.count_eq_zero]
  intro hm
  simp only [sasl_resets, List.mem_map] at hm
  obtain ⟨c, -, hc⟩ := hm
  cases hc

/-- C9: in a call of `infinoted_config_reload` that built the new startup (at
the fresh address `w.next`): if the call returns `TRUE`, the previous
startup has been freed exactly once, the new one has not been freed and is
the startup of the server; if it returns `FALSE`, the new startup has been
freed exactly once, the previous one has not been freed and is still the
startup of the server. -/
theorem reload_frees_one_startup (cfg : BuildConfig) (env : Collaborators) (w : World)
    (r : ReloadResult) (contents : StartupContents)
    (hc : env.startup_new = .ok contents) (hfresh : w.run.startup.id < w.next)
    (h : infinoted_config_reload cfg env w = some r) :
    ∃ evs, r.world.trace = w.trace ++ evs ∧
      (r.ret = true →
        evs.count (.startup_free w.run.startup.id) = 1 ∧
        evs.count (.startup_free w.next) = 0 ∧
        r.world.run.startup =
          keep_daemonize cfg (drop_config_file (startup_of w.next contents)) w.run.startup ∧
        r.world.run.startup.id = w.next) ∧
      (r.ret = false →
        evs.count (.startup_free w.next) = 1 ∧
        evs.count (.startup_free w.run.startup.id) = 0 ∧
        r.world.run.startup = w.run.startup) := by
  have hne : w.run.startup.id ≠ w.next := Nat.ne_of_lt hfresh
  rcases reload_cases h with ⟨hf, hp⟩ | ⟨ht, -, c, w1, hp, hcm⟩
  · obtain ⟨-, hrun, htr⟩ := prepare_returned hp
    obtain ⟨t, h1, evs, rfl, hcls⟩ := htr contents hc
    refine ⟨evs ++ [.startup_free w.next], by simp [h1], ?_, ?_⟩
    · intro ht
      rw [hf] at ht
      cases ht
    · intro _
      have hz : ∀ i, evs.count (.startup_free i) = 0 :=
        count_startup_free_zero hcls (by decide)
      refine ⟨by simp [List.count_append, hz], ?_, by rw [hrun]⟩
      simp [List.count_append, hz, List.count_singleton, hne.symm]
  · obtain ⟨c2, port, hc2, -, -, hs, hrun, -, -, -, ⟨e1, he1, hc1⟩, -, -⟩ := prepare_ready hp
    rw [hc] at hc2
    cases hc2
    obtain ⟨q1, -, -, -, -, -, mid, hmid, hmidc, -⟩ := commit_spec hcm
    obtain ⟨e2, he2, hcl2⟩ := update_servers_emits cfg c.startup c.tcp6 c.tcp4 w1
    have z1 : ∀ i, e1.count (.startup_free i) = 0 := count_startup_free_zero hc1 (by decide)
    have z2 : ∀ i, e2.count (.startup_free i) = 0 := count_startup_free_zero hcl2 (by decide)
    have z3 : ∀ i, mid.count (.startup_free i) = 0 := count_startup_free_zero hmidc (by decide)
    refine ⟨e1 ++ e2 ++ mid ++ sasl_resets w1.run.directory.connections c.startup.sasl_context ++
      [.startup_free w1.run.startup.id], by simp [hmid, he2, he1], ?_, ?_⟩
    · intro _
      rw [hrun]
      refine ⟨by simp [List.count_append, z1, z2, z3, count_sasl_resets], ?_, ?_, ?_⟩
      · simp [List.count_append, z1, z2, z3, count_sasl_resets, List.count_singleton, hne]
      · rw [q1, hs, hrun]
      · rw [q1, hs]
        simp [startup_of]
    · intro hfalse
      rw [ht] at hfalse
      cases hfalse

/-- The example of C9: a reload of the example server with unchanged options
frees startup 0 once and installs startup 20. -/
theorem reload_frees_one_startup_witness :
    example_world.run.startup.id < example_world.next ∧
      ∃ evs, (result_of (infinoted_config_reload example_cfg (example_env example_options)
          example_world)).world.trace = example_world.trace ++ evs ∧
        evs.count (.startup_free 0) = 1 ∧ evs.count (.startup_free 20) = 0 :=
  ⟨by decide,
    (reload_frees_one_startup example_cfg (example_env example_options) example_world
      (result_of (infinoted_config_reload example_cfg (example_env example_options)
        example_world))
      { options := example_options, credentials := some 201, sasl_context := some 202,
        log := some 200 }
      rfl (by decide) (by decide)).imp
      (fun _ hx => ⟨hx.1, (hx.2.1 (by decide)).1, (hx.2.1 (by decide)).2.1⟩)⟩

theorem filter_auth_reset_nil {S : List EventClass} {evs : List Event}
    (h : ∀ e ∈ evs, e.cls ∈ S) (hS : EventClass.auth_reset ∉ S) :
    evs.filter (fun e => e.cls == .auth_reset) = [] := by
  rw [List.filter_eq_nil_iff]
  intro e hm hcls
  have heq : e.cls = .auth_reset := by simpa using hcls
  exact hS (heq ▸ h e hm)

theorem filter_auth_reset_resets (connections : List InfXmlConnection) (u : Option Nat) :
    (sasl_resets connections u).filter (fun e => e.cls == .auth_reset) =
      sasl_resets connections u := by
  rw [List.filter_eq_self]
  intro e hm
  simp only [sasl_resets, List.mem_map] at hm
  obtain ⟨c, -, rfl⟩ := hm
  simp [Event.cls]

/-- C10: after a reload that returned `TRUE`, every server of the running
server (IPv4 and IPv6) has the SASL context of the new startup and the
mechanisms "PLAIN" if that context is present, none if it is absent; the
calls that reset the authentication of a connection are exactly one for each
XMPP connection of the directory, in order, each with that context and those
mechanisms; and the directory has the connections it had. -/
theorem reload_propagates_sasl_context (cfg : BuildConfig) (env : Collaborators) (w : World)
    (r : ReloadResult) (contents : StartupContents)
    (hc : env.startup_new = .ok contents)
    (h : infinoted_config_reload cfg env w = some r) (hret : r.ret = true) :
    r.world.run.startup.sasl_context = contents.sasl_context ∧
      (∀ ipv6 x, r.world.run.xmpp ipv6 = some x →
        x.sasl_context = contents.sasl_context ∧
        x.sasl_mechanisms = if contents.sasl_context.isSome then some "PLAIN" else none) ∧
      r.world.run.directory.connections = w.run.directory.connections ∧
      ∃ evs, r.world.trace = w.trace ++ evs ∧
        evs.filter (fun e => e.cls == .auth_reset) =
          (w.run.directory.connections.filter (fun c => c.is_xmpp)).map
            (fun c => .xmpp_connection_reset_sasl_authentication c.id contents.sasl_context
              (if contents.sasl_context.isSome then some "PLAIN" else none)) := by
  rcases reload_cases h with ⟨hf, -⟩ | ⟨-, -, c, w1, hp, hcm⟩
  · rw [hf] at hret
    cases hret
  · obtain ⟨c2, port, hc2, -, -, hs, hrun, -, -, -, ⟨e1, he1, hc1⟩, -, -⟩ := prepare_ready hp
    rw [hc] at hc2
    cases hc2
    obtain ⟨q1, q4, q6, -, qconn, -, mid, hmid, hmidc, -⟩ := commit_spec hcm
    obtain ⟨e2, he2, hcl2⟩ := update_servers_emits cfg c.startup c.tcp6 c.tcp4 w1
    have hctx : c.startup.sasl_context = contents.sasl_context := by
      rw [hs]
      rfl
    refine ⟨by rw [q1]; simp [hctx], ?_, by rw [qconn, hrun], ?_⟩
    · intro ipv6 x hx
      cases ipv6
      · rw [run_xmpp_false, q4] at hx
        obtain ⟨y, -, rfl⟩ := Option.map_eq_some'.mp hx
        simp [with_sasl, mechanisms_for, hctx]
      · rw [run_xmpp_true, q6] at hx
        obtain ⟨y, -, rfl⟩ := Option.map_eq_some'.mp hx
        simp [with_sasl, mechanisms_for, hctx]
    · refine ⟨e1 ++ e2 ++ mid ++
        sasl_resets w1.run.directory.connections c.startup.sasl_context ++
        [.startup_free w1.run.startup.id], by simp [hmid, he2, he1], ?_⟩
      simp only [List.filter_append, filter_auth_reset_nil hc1 (by decide),
        filter_auth_reset_nil hcl2 (by decide), filter_auth_reset_nil hmidc (by decide),
        filter_auth_reset_resets, List.nil_append]
      rw [hrun, hctx]
      simp [sasl_resets, mechanisms_for, Event.cls]

/-- The example of C10: after a reload of the example server with unchanged
options, the authentication of its one XMPP connection has been reset. -/
theorem reload_propagates_sasl_context_witness :
    ∃ evs, (result_of (infinoted_config_reload example_cfg (example_env example_options)
        example_world)).world.trace = example_world.trace ++ evs ∧
      evs.filter (fun e => e.cls == .auth_reset) =
        [.xmpp_connection_reset_sasl_authentication 10 (some 202) (some "PLAIN")] :=
  (reload_propagates_sasl_context example_cfg (example_env example_options) example_world
    (result_of (infinoted_config_reload example_cfg (example_env example_options)
      example_world))
    { options := example_options, credentials := some 201, sasl_context := some 202,
      log := some 200 }
    rfl (by decide) (by decide)).2.2.2

/-! ## The error of a failed bind, and the startup -/

/-- C11 as stated fails on the example: both binds fail, the IPv6 bind with
error 2 and the IPv4 bind with error 3; the reload returns `FALSE` with
error 3, not with the error of the IPv6 bind. -/
theorem reload_both_binds_fail_error_not_ipv6 :
    example_env_no_bind.bind6 = some { code := 2 } ∧
      example_env_no_bind.bind4 = some { code := 3 } ∧
      current_port example_world.run = some 6523 ∧
      (infinoted_config_reload example_cfg example_env_no_bind example_world).map
        (fun r => (r.ret, r.error)) = some (false, some { code := 3 }) ∧
      (infinoted_config_reload example_cfg example_env_no_bind example_world).map
        (fun r => r.error) ≠ some (some { code := 2 }) := by
  decide

/-- C11, amended: when the port of the new options differs from the port the
server runs on, the new startup is built with its Diffie-Hellman parameters,
and neither the IPv6 nor the IPv4 server can be bound, the reload returns
`FALSE` and the error handed to the caller is the error of the IPv4 bind; the
IPv6 bind is called without an error location. -/
theorem reload_both_binds_fail_error (cfg : BuildConfig) (env : Collaborators) (w : World)
    (contents : StartupContents) (port : Nat) (e4 : GError)
    (hc : env.startup_new = .ok contents)
    (hdh : contents.credentials.isSome = true → env.dh_params_ensure = none)
    (hport : current_port w.run = some port) (hne : contents.options.port ≠ port)
    (h6 : env.bind6.isSome = true) (h4 : env.bind4 = some e4) :
    ∃ r, infinoted_config_reload cfg env w = some r ∧ r.ret = false ∧
      r.error = some e4 := by
  have hdh2 : dh_params_error env (startup_of w.next contents) = none := by
    unfold dh_params_error
    by_cases hcr : contents.credentials.isSome = true
    · simp [startup_of, hcr, hdh hcr]
    · simp [startup_of, hcr]
  have key : ∃ r, prepare env w = .returned r ∧ r.ret = false ∧ r.error = some e4 := by
    unfold prepare
    simp only [hc, hdh2]
    unfold prepare_servers
    have hne2 : ((startup_of w.next contents).options.port != port) = true := by
      simpa [startup_of] using hne
    simp only [get_tcp_servers_run, ensure_dh_params_run, startup_created_run, hport, hne2,
      if_true]
    obtain ⟨e, w2, hb, he, -⟩ := bind_new_servers_fails (startup_of w.next contents).options.port
      (unref_tcp_servers (get_tcp_servers (ensure_dh_params env (startup_of w.next contents)
        (startup_created (startup_of w.next contents) w)))) h6 (by simp [h4])
    rw [hb]
    rw [h4] at he
    cases he
    exact ⟨_, rfl, rfl, rfl⟩
  obtain ⟨r, hp, hret, herr⟩ := key
  exact ⟨r, by unfold infinoted_config_reload; rw [hp], hret, herr⟩

/-- The example of the amended C11: on the example server, a reload to port
7000 on which nothing can be bound returns the error of the IPv4 bind. -/
theorem reload_both_binds_fail_error_witness :
    ∃ r, infinoted_config_reload example_cfg example_env_no_bind example_world = some r ∧
      r.ret = false ∧ r.error = some { code := 3 } :=
  reload_both_binds_fail_error example_cfg example_env_no_bind example_world
    { options := { example_options with port := 7000 }, credentials := some 201,
      sasl_context := some 202, log := some 200 }
    6523 { code := 3 } rfl (fun _ => rfl) (by decide) (by decide) (by decide) rfl
namespace Startup

/-- C13: with a configured password `p` and a presented password `q`,
`infinoted_startup_gsasl_callback` returns `GSASL_OK` if and only if the
property is `GSASL_VALIDATE_SIMPLE` and `q` is `p`; in every other case it
returns `GSASL_AUTHENTICATION_ERROR`. -/
theorem gsasl_callback_accepts_iff (startup : InfinotedStartup) (options : InfinotedOptions)
    (session : Gsasl_session) (prop : Gsasl_property) (p q : String)
    (ho : startup.options = some options) (hp : options.password = some p)
    (hq : session.password = some q) :
    (infinoted_startup_gsasl_callback startup session prop = some .GSASL_OK ↔
        prop = .GSASL_VALIDATE_SIMPLE ∧ q = p) ∧
      (¬ (prop = .GSASL_VALIDATE_SIMPLE ∧ q = p) →
        infinoted_startup_gsasl_callback startup session prop =
          some .GSASL_AUTHENTICATION_ERROR) := by
  unfold infinoted_startup_gsasl_callback
  cases prop with
  | GSASL_VALIDATE_SIMPLE =>
    simp only [ho, Option.some_bind, Option.bind_some, true_and]
    simp only [hp, hq]
    by_cases hpq : p = q
    · simp [hpq]
    · have hqp : ¬ q = p := fun h => hpq h.symm
      simp [hpq, hqp]
  | other code => simp

/-- The example of C13: the password "secret" is accepted for a simple
validation, "guess" is not. -/
theorem gsasl_callback_accepts_iff_witness :
    infinoted_startup_gsasl_callback example_startup { password := some "secret" }
        .GSASL_VALIDATE_SIMPLE = some .GSASL_OK ∧
      infinoted_startup_gsasl_callback example_startup { password := some "guess" }
        .GSASL_VALIDATE_SIMPLE = some .GSASL_AUTHENTICATION_ERROR :=
  ⟨(gsasl_callback_accepts_iff example_startup example_options { password := some "secret" }
      .GSASL_VALIDATE_SIMPLE "secret" "secret" rfl rfl rfl).1.mpr ⟨rfl, rfl⟩,
    (gsasl_callback_accepts_iff example_startup example_options { password := some "guess" }
      .GSASL_VALIDATE_SIMPLE "secret" "guess" rfl rfl rfl).2 (by decide)⟩

/-- C14 as stated fails on the example startup: `infinoted_startup_free`
releases the credentials, the certificates, the key and the options before
the `Gsasl` handle, which comes first in the claim. -/
theorem startup_free_releases_gsasl_after_options :
    infinoted_startup_free example_startup [] =
      some [.credentials_unref 3, .crt_deinit 1, .crt_deinit 2, .array_free,
        .privkey_deinit 4, .options_free, .gsasl_done 5, .slice_free, .inf_deinit] := by
  decide

/-- C14, amended: for every startup whose certificate count is the length of
its certificate array, `infinoted_startup_free` releases, in this order, the
credentials (credential handle, certificates, private key), the options, the
`Gsasl` handle, and last the reference to the runtime; each part that is
present is released once and an absent part is skipped. -/
theorem startup_free_release_order (startup : InfinotedStartup) (t : List Event)
    (hn : ∀ certificates, startup.certificates = some certificates →
      startup.n_certificates = certificates.length) :
    infinoted_startup_free startup t = some (t ++ release_order startup) := by
  unfold infinoted_startup_free release_order infinoted_startup_free_certificate_array
  cases hce : startup.certificates with
  | none =>
    cases hcr : startup.credentials <;> cases hk : startup.private_key <;>
      cases ho : startup.options <;> cases hg : startup.gsasl <;> simp
  | some certificates =>
    have hl := hn certificates hce
    cases hcr : startup.credentials <;> cases hk : startup.private_key <;>
      cases ho : startup.options <;> cases hg : startup.gsasl <;> simp [hl]

/-- The example of the amended C14: the example startup. -/
theorem startup_free_release_order_witness :
    infinoted_startup_free example_startup [] = some ([] ++ release_order example_startup) :=
  startup_free_release_order example_startup []
    (by
      intro certificates h
      cases h
      rfl)


/-- C12, at the failing input: the certificate file gives the certificates 1
and 2, the chain file cannot be loaded.  `infinoted_startup_new` returns no
startup; the key, the options, the structure and the runtime are released,
the certificate array is freed, and the certificates 1 and 2 are not released:
`*n_certificates` is still 0 when the array is freed. -/
theorem startup_new_chain_failure_leaks_certificates :
    infinoted_startup_new example_calls_chain_failure =
      some { startup := none, error := some { code := 7 },
             trace := [.inf_init, .slice_new, .options_new, .privkey_new 4, .crt_new 1,
               .crt_new 2, .array_free, .privkey_deinit 4, .options_free, .slice_free,
               .inf_deinit] } ∧
      (infinoted_startup_new example_calls_chain_failure).map
        (fun r => (acquired .certificate r.trace, released .certificate r.trace)) =
        some ([1, 2], []) := by
  decide


@[simp] theorem acquired_append (k : Kind) (t u : List Event) :
    acquired k (t ++ u) = acquired k t ++ acquired k u := by
  simp [acquired]

@[simp] theorem released_append (k : Kind) (t u : List Event) :
    released k (t ++ u) = released k t ++ released k u := by
  simp [released]

@[simp] theorem acquired_nil (k : Kind) : acquired k [] = [] := rfl

@[simp] theorem released_nil (k : Kind) : released k [] = [] := rfl

theorem acquired_map_crt_new (k : Kind) (cs : List Nat) :
    acquired k (cs.map Event.crt_new) = if k = .certificate then cs else [] := by
  induction cs with
  | nil => simp
  | cons c cs ih =>
    have hc : acquired k (Event.crt_new c :: cs.map Event.crt_new) =
        acquired k [Event.crt_new c] ++ acquired k (cs.map Event.crt_new) := by
      rw [← acquired_append]
      rfl
    rw [List.map_cons, hc, ih]
    cases k <;> simp [acquired, Event.acquires]

theorem released_map_crt_new (k : Kind) (cs : List Nat) :
    released k (cs.map Event.crt_new) = [] := by
  induction cs with
  | nil => simp
  | cons c cs ih =>
    have hc : released k (Event.crt_new c :: cs.map Event.crt_new) =
        released k [Event.crt_new c] ++ released k (cs.map Event.crt_new) := by
      rw [← released_append]
      rfl
    rw [List.map_cons, hc, ih]
    simp [released, Event.releases]

theorem acquired_map_crt_deinit (k : Kind) (cs : List Nat) :
    acquired k (cs.map Event.crt_deinit) = [] := by
  induction cs with
  | nil => simp
  | cons c cs ih =>
    have hc : acquired k (Event.crt_deinit c :: cs.map Event.crt_deinit) =
        acquired k [Event.crt_deinit c] ++ acquired k (cs.map Event.crt_deinit) := by
      rw [← acquired_append]
      rfl
    rw [List.map_cons, hc, ih]
    simp [acquired, Event.acquires]

theorem released_map_crt_deinit (k : Kind) (cs : List Nat) :
    released k (cs.map Event.crt_deinit) = if k = .certificate then cs else [] := by
  induction cs with
  | nil => simp
  | cons c cs ih =>
    have hc : released k (Event.crt_deinit c :: cs.map Event.crt_deinit) =
        released k [Event.crt_deinit c] ++ released k (cs.map Event.crt_deinit) := by
      rw [← released_append]
      rfl
    rw [List.map_cons, hc, ih]
    cases k <;> simp [released, Event.releases]

theorem load_key_keeps (env : Calls) (create_key : Bool) (t : List Event) :
    ∃ evs, (infinoted_startup_load_key env create_key t).2 = t ++ evs ∧
      ∀ k x, (acquired k evs).count x = (released k evs).count x +
        (if k = .key then
          (match (infinoted_startup_load_key env create_key t).1 with
            | .ok key => [key]
            | .error _ => []).count x
          else 0) := by
  unfold infinoted_startup_load_key
  cases create_key
  · cases hr : env.creds_read_key with
    | error e => exact ⟨[], by simp, by simp⟩
    | ok key =>
      refine ⟨[.privkey_new key], by simp, ?_⟩
      intro k x
      cases k <;> simp [acquired, released, Event.acquires, Event.releases]
  · cases hd : env.create_dirname_key with
    | some e => exact ⟨[], by simp, by simp⟩
    | none =>
      cases hk : env.creds_create_key with
      | error e => exact ⟨[], by simp, by simp⟩
      | ok key =>
        cases hw : env.creds_write_key with
        | some e =>
          refine ⟨[.privkey_new key, .privkey_deinit key], by simp, ?_⟩
          intro k x
          cases k <;> simp [acquired, released, Event.acquires, Event.releases]
        | none =>
          refine ⟨[.privkey_new key], by simp, ?_⟩
          intro k x
          cases k <;> simp [acquired, released, Event.acquires, Event.releases]

theorem load_certificate_keeps (env : Calls) (create : Bool) (chain : Option String)
    (n : Nat) (t : List Event) (hchain : ∀ e, env.load_chain_file ≠ .error e) :
    ∃ l evs, infinoted_startup_load_certificate env create chain n t = some l ∧
      l.trace = t ++ evs ∧
      (∀ cs, l.result = some cs → l.n_certificates = cs.length) ∧
      ∀ k x, (acquired k evs).count x = (released k evs).count x +
        (if k = .certificate then (l.result.getD []).count x else 0) := by
  unfold infinoted_startup_load_certificate
  cases create
  · cases hl : env.load_file with
    | error e => exact ⟨_, [], rfl, by simp, by simp, by simp⟩
    | ok certs =>
      cases chain with
      | none =>
        refine ⟨_, certs.map Event.crt_new, rfl, by simp, by simp, ?_⟩
        intro k x
        cases k <;> simp [acquired_map_crt_new, released_map_crt_new]
      | some file =>
        cases hch : env.load_chain_file with
        | error e => exact absurd hch (hchain e)
        | ok more =>
          refine ⟨_, certs.map Event.crt_new ++ more.map Event.crt_new, rfl, by simp, by simp,
            ?_⟩
          intro k x
          cases k <;> simp [acquired_map_crt_new, released_map_crt_new]
  · cases hd : env.create_dirname_certificate with
    | some e => exact ⟨_, [], rfl, by simp, by simp, by simp⟩
    | none =>
      cases hk : env.create_self_signed_certificate with
      | error e => exact ⟨_, [], rfl, by simp, by simp, by simp⟩
      | ok cert =>
        cases hw : env.save_file with
        | some e =>
          refine ⟨_, [.crt_new cert, .crt_deinit cert], rfl, by simp, by simp, ?_⟩
          intro k x
          cases k <;> simp [acquired, released, Event.acquires, Event.releases]
        | none =>
          refine ⟨_, [.crt_new cert], rfl, by simp, by simp, ?_⟩
          intro k x
          cases k <;> simp [acquired, released, Event.acquires, Event.releases]


theorem load_credentials_keeps (env : Calls) (options : InfinotedOptions) (s : State)
    (hchain : ∀ e, env.load_chain_file ≠ .error e)
    (hk : s.startup.private_key = none) (hce : s.startup.certificates = none)
    (hcr : s.startup.credentials = none) (hkeeps : Keeps s.startup s.trace) :
    ∃ b s1, infinoted_startup_load_credentials env options s = some (b, s1) ∧
      Keeps s1.startup s1.trace ∧ s1.startup.options = s.startup.options ∧
      s1.startup.gsasl = s.startup.gsasl := by
  obtain ⟨-, hcount⟩ := hkeeps
  unfold infinoted_startup_load_credentials
  by_cases hpol : (options.security_policy != INF_XMPP_CONNECTION_SECURITY_ONLY_UNSECURED) = true
  · simp only [hpol, if_true]
    obtain ⟨ek, hkt, hkc⟩ := load_key_keeps env options.create_key s.trace
    cases hkey : (infinoted_startup_load_key env options.create_key s.trace).1 with
    | error e =>
      refine ⟨false, _, rfl, ⟨by simp [hce], ?_⟩, rfl, rfl⟩
      intro k x
      have h1 := hcount k x
      have h2 := hkc k x
      rw [hkey] at h2
      simp only [hkt, acquired_append, released_append, List.count_append]
      cases k <;> simp [held, hk, hce, hcr] at h1 h2 ⊢ <;> omega
    | ok key =>
      dsimp only
      obtain ⟨l, ec, hl, hlt, hln, hlc⟩ := load_certificate_keeps env options.create_certificate
        options.certificate_chain_file s.startup.n_certificates
        (infinoted_startup_load_key env options.create_key s.trace).2 hchain
      rw [hl]
      dsimp only
      cases hres : l.result with
      | none =>
        refine ⟨false, _, rfl, ⟨by simp, ?_⟩, rfl, rfl⟩
        intro k x
        have h1 := hcount k x
        have h2 := hkc k x
        have h3 := hlc k x
        rw [hkey] at h2
        rw [hres] at h3
        simp only [hlt, hkt, acquired_append, released_append, List.count_append]
        cases k <;> simp [held, hk, hce, hcr] at h1 h2 h3 ⊢ <;> omega
      | some cs =>
        have hlen := hln cs hres
        cases hcred : env.create_credentials with
        | error e =>
          refine ⟨false, _, rfl, ⟨by simp [hlen], ?_⟩, rfl, rfl⟩
          intro k x
          have h1 := hcount k x
          have h2 := hkc k x
          have h3 := hlc k x
          rw [hkey] at h2
          rw [hres] at h3
          simp only [hlt, hkt, acquired_append, released_append, List.count_append]
          cases k <;> simp [held, hk, hce, hcr] at h1 h2 h3 ⊢ <;> omega
        | ok credentials =>
          refine ⟨true, _, rfl, ⟨by simp [hlen], ?_⟩, rfl, rfl⟩
          intro k x
          have h1 := hcount k x
          have h2 := hkc k x
          have h3 := hlc k x
          rw [hkey] at h2
          rw [hres] at h3
          simp only [hlt, hkt, acquired_append, released_append, List.count_append]
          cases k <;>
            simp [held, hk, hce, hcr, acquired, released, Event.acquires, Event.releases]
              at h1 h2 h3 ⊢ <;> omega
  · simp only [hpol, if_false]
    exact ⟨true, s, rfl, ⟨by simp [hce], hcount⟩, rfl, rfl⟩


theorem blank_keeps : Keeps blank_startup [.inf_init, .slice_new] := by
  refine ⟨by simp [blank_startup], ?_⟩
  intro k x
  cases k <;> simp [acquired, released, held, blank_startup, Event.acquires, Event.releases]

theorem load_keeps (env : Calls) (s : State)
    (hchain : ∀ e, env.load_chain_file ≠ .error e)
    (hs : s.startup = blank_startup) (hkeeps : Keeps s.startup s.trace) :
    ∃ b s1, infinoted_startup_load env s = some (b, s1) ∧ Keeps s1.startup s1.trace := by
  unfold infinoted_startup_load infinoted_startup_load_options
  cases ho : env.options_new with
  | error e =>
    exact ⟨false, { s with error := some e }, by simp, hkeeps⟩
  | ok options =>
    have hk0 : Keeps { s.startup with options := some options } (s.trace ++ [.options_new]) := by
      obtain ⟨-, hcount⟩ := hkeeps
      refine ⟨by simp [hs, blank_startup], ?_⟩
      intro k x
      have h1 := hcount k x
      cases k <;>
        simp [held, hs, blank_startup, acquired, released, Event.acquires, Event.releases]
          at h1 ⊢ <;> omega
    obtain ⟨b, s1, hl, hk1, -, hg⟩ := load_credentials_keeps env options
      { s with startup := { s.startup with options := some options },
               trace := s.trace ++ [.options_new] }
      hchain (by simp [hs, blank_startup]) (by simp [hs, blank_startup])
      (by simp [hs, blank_startup]) hk0
    simp only [Bool.true_eq_false, if_false, hl]
    cases b with
    | false => exact ⟨false, s1, rfl, hk1⟩
    | true =>
      dsimp only
      by_cases hpw : options.password.isSome = true
      · simp only [hpw, if_true]
        cases hgs : env.gsasl_init with
        | error e => exact ⟨false, _, rfl, hk1⟩
        | ok gsasl =>
          refine ⟨true, _, rfl, ⟨hk1.1, ?_⟩⟩
          intro k x
          have h1 := hk1.2 k x
          have hg0 : s1.startup.gsasl = none := by
            rw [hg]
            simp [hs, blank_startup]
          cases k <;>
            simp [held, hg0, acquired, released, Event.acquires, Event.releases]
              at h1 ⊢ <;> omega
      · simp only [hpw, if_false]
        exact ⟨true, s1, rfl, hk1⟩

theorem release_order_counts (startup : InfinotedStartup) (k : Kind) :
    acquired k (release_order startup) = [] ∧
      released k (release_order startup) = held k startup := by
  have p1 : ∀ o : Option Nat,
      acquired k (match o with
        | some c => [Event.credentials_unref c]
        | none => []) = [] ∧
      released k (match o with
        | some c => [Event.credentials_unref c]
        | none => []) = if k = .credentials then o.toList else [] := by
    intro o
    cases o <;> cases k <;> simp [acquired, released, Event.acquires, Event.releases]
  have p2 : ∀ o : Option (List Nat),
      acquired k (match o with
        | some cs => cs.map Event.crt_deinit ++ [Event.array_free]
        | none => []) = [] ∧
      released k (match o with
        | some cs => cs.map Event.crt_deinit ++ [Event.array_free]
        | none => []) = if k = .certificate then o.getD [] else [] := by
    intro o
    cases o with
    | none => cases k <;> simp
    | some cs =>
      simp only [acquired_append, released_append, acquired_map_crt_deinit,
        released_map_crt_deinit]
      cases k <;> simp [acquired, released, Event.acquires, Event.releases]
  have p3 : ∀ o : Option Nat,
      acquired k (match o with
        | some key => [Event.privkey_deinit key]
        | none => []) = [] ∧
      released k (match o with
        | some key => [Event.privkey_deinit key]
        | none => []) = if k = .key then o.toList else [] := by
    intro o
    cases o <;> cases k <;> simp [acquired, released, Event.acquires, Event.releases]
  have p4 : ∀ o : Option InfinotedOptions,
      acquired k (match o with
        | some _ => [Event.options_free]
        | none => []) = [] ∧
      released k (match o with
        | some _ => [Event.options_free]
        | none => []) = if k = .options then (if o.isSome then [0] else []) else [] := by
    intro o
    cases o <;> cases k <;> simp [acquired, released, Event.acquires, Event.releases]
  have p5 : ∀ o : Option Nat,
      acquired k (match o with
        | some g => [Event.gsasl_done g]
        | none => []) = [] ∧
      released k (match o with
        | some g => [Event.gsasl_done g]
        | none => []) = if k = .gsasl then o.toList else [] := by
    intro o
    cases o <;> cases k <;> simp [acquired, released, Event.acquires, Event.releases]
  have p6 : acquired k [Event.slice_free, Event.inf_deinit] = [] ∧
      released k [Event.slice_free, Event.inf_deinit] =
        if k = .slice ∨ k = .runtime then [0] else [] := by
    cases k <;> simp [acquired, released, Event.acquires, Event.releases]
  unfold release_order
  simp only [acquired_append, released_append, (p1 _).1, (p1 _).2, (p2 _).1, (p2 _).2,
    (p3 _).1, (p3 _).2, (p4 _).1, (p4 _).2, (p5 _).1, (p5 _).2, p6.1, p6.2]
  cases k <;> simp [held]

/-- Freeing a startup that accounts for the trace leaves nothing behind: the
call returns, and afterwards every handle has been released as often as it
has been acquired. -/
theorem startup_free_balances (startup : InfinotedStartup) (t : List Event)
    (hkeeps : Keeps startup t) :
    ∃ t1, infinoted_startup_free startup t = some t1 ∧
      ∀ k x, (released k t1).count x = (acquired k t1).count x := by
  refine ⟨_, startup_free_release_order startup t hkeeps.1, ?_⟩
  intro k x
  have h1 := hkeeps.2 k x
  obtain ⟨ha, hr⟩ := release_order_counts startup k
  simp only [acquired_append, released_append, List.count_append, ha, hr, List.count_nil]
  omega

/-- The call `infinoted_startup_new` returns when the chain file, if it is
read, can be loaded; it returns also in the example where it cannot. -/
theorem startup_new_returns (env : Calls) (hchain : ∀ e, env.load_chain_file ≠ .error e) :
    ∃ r, infinoted_startup_new env = some r := by
  unfold infinoted_startup_new
  cases hi : env.inf_init with
  | some e => exact ⟨_, rfl⟩
  | none =>
    obtain ⟨b, s1, hl, hk⟩ := load_keeps env
      { startup := blank_startup, error := none, trace := [.inf_init, .slice_new] }
      hchain rfl blank_keeps
    have hl2 : infinoted_startup_load env
        { startup := { options := none, private_key := none, certificates := none,
                       n_certificates := 0, credentials := none, gsasl := none },
          error := none, trace := [.inf_init, .slice_new] } = some (b, s1) := hl
    simp only [hl2]
    cases b with
    | true => exact ⟨_, rfl⟩
    | false =>
      obtain ⟨t1, hf, -⟩ := startup_free_balances s1.startup s1.trace hk
      simp only [hf]
      exact ⟨_, rfl⟩

/-- The failure points of `infinoted_startup_new` other than the chain file:
when the chain file, if it is read, can be loaded and the call returns no
startup, every handle acquired during the call (runtime reference,
structure, options, private key, certificates, credentials, `Gsasl` handle)
has been released as often as it was acquired. -/
theorem startup_new_failure_releases (env : Calls) (r : Result)
    (hchain : ∀ e, env.load_chain_file ≠ .error e)
    (h : infinoted_startup_new env = some r) (hnone : r.startup = none) :
    ∀ k x, (released k r.trace).count x = (acquired k r.trace).count x := by
  unfold infinoted_startup_new at h
  cases hi : env.inf_init with
  | some e =>
    simp only [hi] at h
    cases h
    intro k x
    simp
  | none =>
    obtain ⟨b, s1, hl, hk⟩ := load_keeps env
      { startup := blank_startup, error := none, trace := [.inf_init, .slice_new] }
      hchain rfl blank_keeps
    have hl2 : infinoted_startup_load env
        { startup := { options := none, private_key := none, certificates := none,
                       n_certificates := 0, credentials := none, gsasl := none },
          error := none, trace := [.inf_init, .slice_new] } = some (b, s1) := hl
    simp only [hi, hl2] at h
    cases b with
    | true =>
      simp only at h
      cases h
      cases hnone
    | false =>
      obtain ⟨t1, hf, hbal⟩ := startup_free_balances s1.startup s1.trace hk
      simp only [hf] at h
      cases h
      exact hbal

end Startup

end Infinoted
